import Mathlib

/-!
Verification development for the GraphRisk partner-fraud-detector core
(`api/algorithms/opposite_trading.py`, `mirror_trading.py`, `bonus_abuse.py`).

Modelling conventions:
* Python floats are modelled as exact rationals (`ℚ`); the Pearson
  correlation, whose value involves `math.sqrt`, is modelled in `ℝ`.
* Python exceptions (timestamp parse failures via `datetime.fromisoformat`,
  `ZeroDivisionError` on `min(v1,v2)/max(v1,v2)` with two zero volumes)
  are modelled by `Option`: `none` means the run aborts with an exception.
* `datetime.now()` (reached by `bonus_abuse.parse_timestamp` when parsing
  fails) is modelled by an explicit `now : Int` parameter (seconds).
* Timestamps are ISO strings; `parseTimestamp` models
  `datetime.fromisoformat(ts.replace('Z', '+00:00'))` on the canonical
  subset `YYYY-MM-DDTHH:MM:SS` with an optional `+00:00` offset (written
  directly or via a trailing `Z`), returning seconds in the proleptic
  Gregorian calendar.  Other layouts accepted by Python (date-only, basic
  format, fractional seconds, other offsets) are not modelled; all concrete
  inputs below use the canonical subset, and the aware/naive distinction is
  ignored.
* Presentation-only parts of a finding (`round(x, k)` formatting, client
  display names, free-text evidence strings, the `top_opposite_pairs`
  excerpt) are omitted; every numeric/score/ordering-relevant field is kept.
-/

namespace GraphRisk

/-! ## Timestamp parsing (`parse_timestamp` in all three modules) -/

/-- Value of a decimal digit character, `none` if not a digit. -/
def digitVal (c : Char) : Option Nat :=
  if c.isDigit then some (c.toNat - 48) else none

/-- Two-digit decimal number. -/
def num2 (a b : Char) : Option Nat := do
  pure ((← digitVal a) * 10 + (← digitVal b))

/-- Four-digit decimal number. -/
def num4 (a b c d : Char) : Option Nat := do
  pure ((← num2 a b) * 100 + (← num2 c d))

/-- Proleptic Gregorian leap year test. -/
def isLeapYear (y : Nat) : Bool :=
  (y % 4 == 0 && y % 100 != 0) || (y % 400 == 0)

/-- Number of days in month `m` of year `y`. -/
def daysInMonth (y m : Nat) : Nat :=
  if m = 2 then (if isLeapYear y then 29 else 28)
  else if m = 4 ∨ m = 6 ∨ m = 9 ∨ m = 11 then 30
  else 31

/-- Days in year `y` before the first day of month `m`. -/
def daysBeforeMonth (y m : Nat) : Nat :=
  ((List.range (m - 1)).map (fun i => daysInMonth y (i + 1))).sum

/-- Day count of a proleptic Gregorian civil date (day 0 = 0001-01-01). -/
def daysFromCivil (y m d : Nat) : Nat :=
  365 * (y - 1) + ((y - 1) / 4 - (y - 1) / 100 + (y - 1) / 400)
    + daysBeforeMonth y m + (d - 1)

/-- Seconds corresponding to a civil date-time. -/
def civilSeconds (y mo d h mi s : Nat) : Int :=
  (daysFromCivil y mo d : Int) * 86400 + (h : Int) * 3600 + (mi : Int) * 60 + (s : Int)

/-- Parse the canonical 19-character layout `YYYY-MM-DDTHH:MM:SS`,
validating field ranges as `datetime.fromisoformat` does. -/
def parseCore (cs : List Char) : Option Int :=
  match cs with
  | [y1, y2, y3, y4, c1, m1, m2, c2, d1, d2c, sep, h1, h2, c3, n1, n2, c4, s1, s2] =>
    if c1 = '-' ∧ c2 = '-' ∧ sep = 'T' ∧ c3 = ':' ∧ c4 = ':' then do
      let y ← num4 y1 y2 y3 y4
      let mo ← num2 m1 m2
      let d ← num2 d1 d2c
      let h ← num2 h1 h2
      let mi ← num2 n1 n2
      let s ← num2 s1 s2
      if 1 ≤ y ∧ 1 ≤ mo ∧ mo ≤ 12 ∧ 1 ≤ d ∧ d ≤ daysInMonth y mo ∧
          h ≤ 23 ∧ mi ≤ 59 ∧ s ≤ 59 then
        some (civilSeconds y mo d h mi s)
      else none
    else none
  | _ => none

/-- `ts.replace('Z', '+00:00')`. -/
def replaceZ : List Char → List Char
  | [] => []
  | 'Z' :: rest => '+' :: '0' :: '0' :: ':' :: '0' :: '0' :: replaceZ rest
  | c :: rest => c :: replaceZ rest

/-- The UTC offset suffix `+00:00`. -/
def utcSuffix : List Char := ['+', '0', '0', ':', '0', '0']

/-- `parse_timestamp` (common to the three modules, without the
`bonus_abuse` exception handler): `datetime.fromisoformat` after replacing
`Z` by `+00:00`.  `none` models the raised `ValueError`. -/
def parseTimestamp (ts : String) : Option Int :=
  let cs := replaceZ ts.toList
  if cs.length = 25 ∧ cs.drop 19 = utcSuffix then parseCore (cs.take 19)
  else parseCore cs

/-! ## Data model -/

/-- A trade record.  `profit_loss` is optional because the code reads it
with `t.get("profit_loss", 0)`. -/
structure Trade where
  trade_id : String
  client_id : String
  timestamp : String
  instrument : String
  direction : String
  volume : ℚ
  price : ℚ
  profit_loss : Option ℚ
deriving DecidableEq

/-- `t.get("profit_loss", 0)`. -/
def Trade.pl (t : Trade) : ℚ := t.profit_loss.getD 0

/-- A client record; optional fields are the ones the code reads through
`.get(...)` with a default. -/
structure Client where
  client_id : String
  name : Option String
  referred_by : String
  signup_date : Option String
  initial_deposit : Option ℚ
  current_balance : Option ℚ
  is_active : Option Bool
  withdrawal_date : Option String
  trades : Option (List Trade)
deriving DecidableEq

instance : Inhabited Client :=
  ⟨{ client_id := "", name := none, referred_by := "", signup_date := none,
     initial_deposit := none, current_balance := none, is_active := none,
     withdrawal_date := none, trades := none }⟩

/-- `client.get("trades", [])`. -/
def Client.tradesD (c : Client) : List Trade := c.trades.getD []

/-- A partner record (only the fields the detectors read). -/
structure Partner where
  partner_id : String
  name : Option String
  type : Option String
deriving DecidableEq

/-- Python truthiness of an optional string field (`None` and `""` are
falsy), used by `if withdrawal_date and signup_date`. -/
def truthy : Option String → Bool
  | none => false
  | some s => s ≠ ""

/-! ## Bonus abuse detector (`bonus_abuse.py`) -/

/-- `bonus_abuse.parse_timestamp`: the parse failure is caught and
`datetime.now()` (the `now` parameter) is returned instead. -/
def parseTimestampNow (now : Int) (ts : String) : Int :=
  (parseTimestamp ts).getD now

/-- Result of `calculate_client_quality_score` (the `metrics` sub-dict is
flattened into the last four fields). -/
structure QualityResult where
  client_id : String
  quality_score : ℤ
  is_suspicious : Bool
  flags : List String
  num_trades : Nat
  initial_deposit : ℚ
  current_balance : ℚ
  is_active : Bool
deriving DecidableEq

/-- `calculate_client_quality_score`: start at 100, apply the six checks in
order (each an exclusive `if/elif` band), clamp to `max 0`, flag
suspicious when the unclamped score is below 50. -/
def calculateClientQualityScore (now : Int) (c : Client) : QualityResult :=
  let trades := c.tradesD
  let deposit := c.initial_deposit.getD 0
  let balance := c.current_balance.getD 0
  let isActive := c.is_active.getD true
  let n := trades.length
  let s1 : ℤ := if n = 0 then 40 else if n < 5 then 25 else if n < 10 then 10 else 0
  let f1 : List String :=
    if n = 0 then ["no_trading_activity"]
    else if n < 5 then ["minimal_trading"]
    else if n < 10 then ["low_trading_volume"]
    else []
  let s2 : ℤ :=
    if trades ≠ [] ∧ deposit > 0 then
      if (trades.map Trade.volume).sum / deposit < 1/10 then 20
      else if (trades.map Trade.volume).sum / deposit < 1/2 then 10
      else 0
    else 0
  let f2 : List String :=
    if trades ≠ [] ∧ deposit > 0 then
      if (trades.map Trade.volume).sum / deposit < 1/10 then ["very_low_volume_ratio"]
      else if (trades.map Trade.volume).sum / deposit < 1/2 then ["low_volume_ratio"]
      else []
    else []
  let s3 : ℤ :=
    if truthy c.withdrawal_date ∧ truthy c.signup_date then
      if Int.fdiv (parseTimestampNow now ((c.withdrawal_date).getD "")
          - parseTimestampNow now ((c.signup_date).getD "")) 86400 ≤ 3 then 30
      else if Int.fdiv (parseTimestampNow now ((c.withdrawal_date).getD "")
          - parseTimestampNow now ((c.signup_date).getD "")) 86400 ≤ 7 then 15
      else 0
    else 0
  let f3 : List String :=
    if truthy c.withdrawal_date ∧ truthy c.signup_date then
      if Int.fdiv (parseTimestampNow now ((c.withdrawal_date).getD "")
          - parseTimestampNow now ((c.signup_date).getD "")) 86400 ≤ 3 then
        ["immediate_withdrawal"]
      else if Int.fdiv (parseTimestampNow now ((c.withdrawal_date).getD "")
          - parseTimestampNow now ((c.signup_date).getD "")) 86400 ≤ 7 then
        ["quick_withdrawal"]
      else []
    else []
  let s4 : ℤ :=
    if deposit > 0 then
      if balance / deposit < 1/5 then 15
      else if balance / deposit < 1/2 then 5
      else 0
    else 0
  let f4 : List String :=
    if deposit > 0 then
      if balance / deposit < 1/5 then ["most_funds_withdrawn"]
      else if balance / deposit < 1/2 then ["significant_withdrawal"]
      else []
    else []
  let s5 : ℤ := if ¬ isActive then 10 else 0
  let f5 : List String := if ¬ isActive then ["inactive_account"] else []
  let s6 : ℤ := if deposit < 200 then 10 else 0
  let f6 : List String := if deposit < 200 then ["minimal_deposit"] else []
  let score : ℤ := 100 - s1 - s2 - s3 - s4 - s5 - s6
  { client_id := c.client_id
    quality_score := max 0 score
    is_suspicious := decide (score < 50)
    flags := f1 ++ f2 ++ f3 ++ f4 ++ f5 ++ f6
    num_trades := n
    initial_deposit := deposit
    current_balance := balance
    is_active := isActive }

/-- An entry of the suspicious-client list built by
`detect_bonus_abuse_pattern` (evidence string omitted). -/
structure ClientEntry where
  client_id : String
  partner_id : String
  quality_score : ℤ
  flags : List String
deriving DecidableEq

/-- `detect_bonus_abuse_pattern`: score every client, keep the suspicious
ones in input order, then stable-sort ascending by (clamped) quality
score. -/
def detectBonusAbusePattern (now : Int) (clients : List Client) : List ClientEntry :=
  List.mergeSort
    (clients.filterMap (fun c =>
      let q := calculateClientQualityScore now c
      if q.is_suspicious then
        some { client_id := q.client_id, partner_id := c.referred_by,
               quality_score := q.quality_score, flags := q.flags }
      else none))
    (fun a b => decide (a.quality_score ≤ b.quality_score))

/-- A row of `analyze_partner_referral_quality` (evidence string omitted). -/
structure PartnerAnalysis where
  partner_id : String
  total_referrals : Nat
  suspicious_referrals : Nat
  suspicious_ratio : ℚ
  avg_client_quality : ℚ
  conversion_rate : ℚ
  estimated_fraud_value : ℚ
deriving DecidableEq

/-- The `active_count` of `analyze_partner_referral_quality` (line 199):
note the default `c.get("is_active", False)`. -/
def activeCount (clients : List Client) : Nat :=
  (clients.filter (fun c => c.is_active.getD false)).length

/-- The `inactive_count` computed inside `generate_partner_evidence`
(line 245): note the default `c.get("is_active", True)`. -/
def evidenceInactiveCount (clients : List Client) : Nat :=
  (clients.filter (fun c => ! (c.is_active.getD true))).length

/-- `analyze_partner_referral_quality`: per partner with at least one
referred client, compute the ratios and keep the suspicious partners,
sorted descending by suspicious ratio. -/
def analyzePartnerReferralQuality (now : Int) (partners : List Partner)
    (clients : List Client) : List PartnerAnalysis :=
  List.mergeSort
    (partners.filterMap (fun p =>
      let referred := clients.filter (fun c => c.referred_by = p.partner_id)
      if referred = [] then none
      else
        let qs := referred.map (calculateClientQualityScore now)
        let suspiciousCount := (qs.filter (fun q => q.is_suspicious)).length
        let avg := (qs.map (fun q => (q.quality_score : ℚ))).sum / (qs.length : ℚ)
        let conv := (activeCount referred : ℚ) / (referred.length : ℚ)
        if (suspiciousCount : ℚ) / (referred.length : ℚ) > 3/10 ∨ avg < 50 ∨ conv < 1/4 then
          some { partner_id := p.partner_id
                 total_referrals := referred.length
                 suspicious_referrals := suspiciousCount
                 suspicious_ratio := (suspiciousCount : ℚ) / (referred.length : ℚ)
                 avg_client_quality := avg
                 conversion_rate := conv
                 estimated_fraud_value :=
                   ((referred.filter (fun c => (calculateClientQualityScore now c).is_suspicious)).map
                     (fun c => c.initial_deposit.getD 0)).sum * (15/100) }
        else none))
    (fun a b => decide (b.suspicious_ratio ≤ a.suspicious_ratio))

/-- The report assembled by `detect_bonus_abuse`. -/
structure BonusReport where
  total_suspicious_clients : Nat
  total_suspicious_partners : Nat
  total_estimated_fraud_value : ℚ
  suspicious_clients : List ClientEntry
  suspicious_partners : List PartnerAnalysis
deriving DecidableEq

/-- `detect_bonus_abuse`: totals computed on the full lists, client list
truncated to its first 50 entries, partner list unbounded. -/
def detectBonusAbuse (now : Int) (clients : List Client) (partners : List Partner) :
    BonusReport :=
  let sc := detectBonusAbusePattern now clients
  let pa := analyzePartnerReferralQuality now partners clients
  { total_suspicious_clients := sc.length
    total_suspicious_partners := pa.length
    total_estimated_fraud_value := (pa.map (fun a => a.estimated_fraud_value)).sum
    suspicious_clients := sc.take 50
    suspicious_partners := pa }

/-! ## Mirror trading detector (`mirror_trading.py`) -/

/-- `calculate_trade_similarity`: four equally weighted components summed
and divided by 4.  The volume quotient raises `ZeroDivisionError` when both
volumes are 0 and the timestamp parses can raise `ValueError`; both are
modelled by `none`. -/
def calculateTradeSimilarity (w : ℚ) (t1 t2 : Trade) : Option ℚ := do
  let s1 : ℚ := if t1.instrument = t2.instrument then 1 else 0
  let s2 : ℚ := if t1.direction = t2.direction then 1 else 0
  let volQuot ← if max t1.volume t2.volume = 0 then none
    else some (min t1.volume t2.volume / max t1.volume t2.volume)
  let s3 : ℚ := if volQuot ≥ 4/5 then 1 else if volQuot ≥ 1/2 then 1/2 else 0
  let a ← parseTimestamp t1.timestamp
  let b ← parseTimestamp t2.timestamp
  let diffMin : ℚ := ((a - b).natAbs : ℚ) / 60
  let s4 : ℚ := if diffMin ≤ w then 1 - diffMin / w else 0
  pure ((s1 + s2 + s3 + s4) / 4)

/-- One match record of `find_matching_trades`. -/
structure MirrorMatch where
  trade1 : Trade
  trade2 : Trade
  similarity : ℚ
  instrument : String
  direction : String
deriving DecidableEq

/-- Inner scan of `find_matching_trades`: iterate over `enumerate(trades2)`
skipping used indices; keep the strictly best similarity above the running
bound (initially `min_similarity`). -/
def bestUnused (w : ℚ) (t1 : Trade) (used : List Nat) :
    List (Nat × Trade) → Option (Nat × Trade) × ℚ → Option (Option (Nat × Trade) × ℚ)
  | [], acc => some acc
  | it :: rest, acc =>
    if it.1 ∈ used then bestUnused w t1 used rest acc
    else do
      let s ← calculateTradeSimilarity w t1 it.2
      if acc.2 < s then bestUnused w t1 used rest (some it, s)
      else bestUnused w t1 used rest acc

/-- Outer loop of `find_matching_trades`, threading the mutable
`used_indices` set and the accumulated matches. -/
def fmtAux (w minSim : ℚ) (trades2 : List Trade) :
    List Trade → List Nat → List MirrorMatch → Option (List Nat × List MirrorMatch)
  | [], used, ms => some (used, ms)
  | t1 :: rest, used, ms => do
    let best ← bestUnused w t1 used trades2.enum (none, minSim)
    match best.1 with
    | some it =>
        fmtAux w minSim trades2 rest (used ++ [it.1])
          (ms ++ [{ trade1 := t1, trade2 := it.2, similarity := best.2,
                         instrument := t1.instrument, direction := t1.direction }])
    | none => fmtAux w minSim trades2 rest used ms

/-- `find_matching_trades`: one-sided greedy matching; a selected B-index
is added to the used set and never reconsidered. -/
def findMatchingTrades (w minSim : ℚ) (trades1 trades2 : List Trade) :
    Option (List MirrorMatch) :=
  (fmtAux w minSim trades2 trades1 [] []).map (fun st => st.2)

/-- The `match_ratio` cell value of the similarity matrix for client
positions `i < j` (defaults: window 5 minutes, `min_similarity` 0.7). -/
def mirrorCell (pcl : List Client) (i j : Nat) : Option ℚ := do
  let t1 := (pcl.getD i default).tradesD
  let t2 := (pcl.getD j default).tradesD
  let m ← findMatchingTrades 5 (7/10) t1 t2
  pure (if 0 < min t1.length t2.length then
    (m.length : ℚ) / ((min t1.length t2.length : Nat) : ℚ) else 0)

/-- Monadic map over a list, aborting at the first failure. -/
def mapOptM (f : α → Option β) : List α → Option (List β)
  | [] => some []
  | a :: as => do
    let b ← f a
    let rest ← mapOptM f as
    pure (b :: rest)

/-- The full `similarity_matrix` (`n × n`, zero diagonal, symmetric).  The
source computes each off-diagonal cell once for `i < j` and stores it at
both `(i, j)` and `(j, i)`; the rebuild below recomputes the same value for
the mirrored cell, and a parse failure anywhere still yields `none`. -/
def buildMirrorMatrix (pcl : List Client) : Option (List (List ℚ)) :=
  mapOptM (fun i =>
    mapOptM (fun j =>
      if i = j then some 0
      else if i < j then mirrorCell pcl i j
      else mirrorCell pcl j i) (List.range pcl.length))
    (List.range pcl.length)

/-- Reading `similarity_matrix[i][j]`. -/
def matrixEntry (mat : List (List ℚ)) (i j : Nat) : ℚ :=
  (mat.getD i []).getD j 0

/-- Inner loop of the greedy clustering: extend the current cluster by
every later unclustered `j` whose similarity to all current members is at
least the mirror ratio. -/
def extendCluster (M : Nat → Nat → ℚ) (ratio : ℚ) (clustered : List Nat) :
    List Nat → List Nat → List Nat
  | cluster, [] => cluster
  | cluster, j :: js =>
    if j ∈ clustered then extendCluster M ratio clustered cluster js
    else if cluster.all (fun k => decide (ratio ≤ M j k)) then
      extendCluster M ratio clustered (cluster ++ [j]) js
    else extendCluster M ratio clustered cluster js

/-- Outer loop of the greedy clustering, threading the `clustered` set and
the emitted clusters. -/
def greedyAux (M : Nat → Nat → ℚ) (ratio : ℚ) (size n : Nat) :
    List Nat → List Nat → List (List Nat) → List (List Nat)
  | [], _, acc => acc
  | i :: is, clustered, acc =>
    if i ∈ clustered then greedyAux M ratio size n is clustered acc
    else
      let cluster := extendCluster M ratio clustered [i] (List.range' (i + 1) (n - (i + 1)))
      if size ≤ cluster.length then
        greedyAux M ratio size n is (clustered ++ cluster) (acc ++ [cluster])
      else greedyAux M ratio size n is clustered acc

/-- The greedy clustering loop of `detect_mirror_group`: iterate seeds in
index order; clusters reaching `size` members are emitted and their members
marked clustered. -/
def greedyClusters (M : Nat → Nat → ℚ) (n : Nat) (ratio : ℚ) (size : Nat) :
    List (List Nat) :=
  greedyAux M ratio size n (List.range n) [] []

/-- A mirror-trading finding (evidence string omitted). -/
structure MirrorFinding where
  partner_id : String
  group_size : Nat
  client_ids : List String
  confidence_score : ℚ
  total_trades : Nat
  common_instruments : List String
  estimated_fraud_value : ℚ
deriving DecidableEq

/-- Ordered pairs `(l[i], l[j])` with `i < j`, in the double-loop order of
the source. -/
def ordPairs : List α → List (α × α)
  | [] => []
  | a :: as => as.map (fun b => (a, b)) ++ ordPairs as

/-- Instrument frequency table in first-occurrence order
(`defaultdict(int)` insertion order). -/
def instrumentCounts (trades : List Trade) : List (String × Nat) :=
  trades.foldl
    (fun acc t =>
      if acc.any (fun p => p.1 = t.instrument) then
        acc.map (fun p => if p.1 = t.instrument then (p.1, p.2 + 1) else p)
      else acc ++ [(t.instrument, 1)])
    []

/-- One mirror-trading finding for a qualifying cluster: confidence is the
mean pairwise matrix cell, fraud value is 0.3 times the summed absolute
profit/loss of all member trades. -/
def mkMirrorFinding (pid : String) (pcl : List Client) (mat : List (List ℚ))
    (cluster : List Nat) : MirrorFinding :=
  let clusterClients := cluster.map (fun idx => pcl.getD idx default)
  let allTrades := clusterClients.flatMap Client.tradesD
  let top := (List.mergeSort (instrumentCounts allTrades)
      (fun a b => decide (b.2 ≤ a.2))).take 3
  let k := cluster.length
  { partner_id := pid
    group_size := k
    client_ids := clusterClients.map Client.client_id
    confidence_score :=
      ((ordPairs cluster).map (fun p => matrixEntry mat p.1 p.2)).sum
        / max 1 (((k * (k - 1) : Nat) : ℚ) / 2)
    total_trades := allTrades.length
    common_instruments := top.map (fun p => p.1)
    estimated_fraud_value := (allTrades.map (fun t => |t.pl|)).sum * (3/10) }

/-- Monadic concatenation over a list (`extend` inside loops that can
raise). -/
def flatMapM (f : α → Option (List β)) : List α → Option (List β)
  | [] => some []
  | a :: as => do pure ((← f a) ++ (← flatMapM f as))

/-- First-appearance list of `referred_by` keys (`defaultdict` insertion
order). -/
def partnerKeys (clients : List Client) : List String :=
  clients.foldl (fun acc c => if c.referred_by ∈ acc then acc else acc ++ [c.referred_by]) []

/-- `detect_mirror_group`: restrict to clients with at least 10 trades,
group by partner, analyze groups of at least `min_group_size` clients,
and sort the findings by descending confidence. -/
def detectMirrorGroup (clients : List Client) (minGroupSize : Nat) (minMirrorRat : ℚ) :
    Option (List MirrorFinding) := do
  let active := clients.filter (fun c => 10 ≤ c.tradesD.length)
  let fs ← flatMapM (fun pid => do
      let pcl := active.filter (fun c => c.referred_by = pid)
      if pcl.length < minGroupSize then pure []
      else do
        let mat ← buildMirrorMatrix pcl
        pure ((greedyClusters (matrixEntry mat) pcl.length minMirrorRat minGroupSize).map
          (mkMirrorFinding pid pcl mat)))
    (partnerKeys active)
  pure (fs.mergeSort (fun a b => decide (b.confidence_score ≤ a.confidence_score)))

/-! ## Opposite trading detector (`opposite_trading.py`) -/

/-- Parse the timestamps of a list of trades in order, pairing each trade
with its parsed time; the first failure aborts. -/
def parseAll : List Trade → Option (List (Trade × Int))
  | [] => some []
  | t :: ts => do
    let s ← parseTimestamp t.timestamp
    let rest ← parseAll ts
    pure ((t, s) :: rest)

/-- The timing-proximity contribution of one same-instrument cross pair:
`1 − Δt/window` within the window, else 0 (`Δt` in minutes). -/
def timingScore (w : ℚ) (a b : Int) : ℚ :=
  let diff : ℚ := ((a - b).natAbs : ℚ) / 60
  if diff ≤ w then 1 - diff / w else 0

/-- `calculate_timing_correlation`: 0 if either side is empty, else the
same-instrument cross-pair contributions are averaged and capped at 1.
Every timestamp of both lists is parsed before the instrument filter, so
any bad timestamp aborts. -/
def calculateTimingCorrelation (trades1 trades2 : List Trade) (w : ℚ) : Option ℚ :=
  if trades1 = [] ∨ trades2 = [] then some 0
  else do
    let p1 ← parseAll trades1
    let p2 ← parseAll trades2
    let scores := p1.flatMap (fun a =>
      p2.filterMap (fun b =>
        if a.1.instrument = b.1.instrument then some (timingScore w a.2 b.2) else none))
    if scores.length = 0 then pure 0
    else pure (min 1 (scores.sum / (scores.length : ℚ)))

/-- One detected opposite pair. -/
structure OppositePair where
  trade1 : Trade
  trade2 : Trade
  instrument : String
  time_diff_seconds : ℚ
  volume_similarity : ℚ
deriving DecidableEq

/-- The check applied to one cross pair in `detect_opposite_directions`:
same instrument, different direction, within the window; the volume
quotient raises when both volumes are 0. -/
def oppPairOf (w : ℚ) (a b : Trade × Int) : Option (List OppositePair) :=
  if a.1.instrument = b.1.instrument ∧ a.1.direction ≠ b.1.direction ∧
      ((a.2 - b.2).natAbs : ℚ) / 60 ≤ w then
    if max a.1.volume b.1.volume = 0 then none
    else some [{ trade1 := a.1, trade2 := b.1, instrument := a.1.instrument,
                 time_diff_seconds := ((a.2 - b.2).natAbs : ℚ),
                 volume_similarity := min a.1.volume b.1.volume / max a.1.volume b.1.volume }]
  else some []

/-- `detect_opposite_directions` (window in minutes): all qualifying cross
pairs in loop order; nothing is parsed when `trades1` is empty. -/
def detectOppositeDirections (w : ℚ) (trades1 trades2 : List Trade) :
    Option (List OppositePair) :=
  match trades1 with
  | [] => some []
  | _ => do
    let p1 ← parseAll trades1
    let p2 ← parseAll trades2
    flatMapM (fun a => flatMapM (oppPairOf w a) p2) p1

/-- Numerator and the two variances of `calculate_pnl_correlation` over the
length-aligned profit/loss sequences: `(numerator, var1, var2)`. -/
def pnlStats (trades1 trades2 : List Trade) : ℚ × ℚ × ℚ :=
  let n := min trades1.length trades2.length
  let pnl1 := (trades1.map Trade.pl).take n
  let pnl2 := (trades2.map Trade.pl).take n
  let mean1 := pnl1.sum / (pnl1.length : ℚ)
  let mean2 := pnl2.sum / (pnl2.length : ℚ)
  (((pnl1.zip pnl2).map (fun p => (p.1 - mean1) * (p.2 - mean2))).sum,
   (pnl1.map (fun a => (a - mean1) ^ 2)).sum,
   (pnl2.map (fun b => (b - mean2) ^ 2)).sum)

/-- `calculate_pnl_correlation`: 0 when either side has fewer than two
trades or the denominator `sqrt(var1*var2)` vanishes, else the Pearson
quotient. -/
noncomputable def calculatePnlCorrelation (trades1 trades2 : List Trade) : ℝ :=
  if trades1.length < 2 ∨ trades2.length < 2 then 0
  else
    let s := pnlStats trades1 trades2
    let den : ℝ := Real.sqrt ((s.2.1 : ℝ) * (s.2.2 : ℝ))
    if den = 0 then 0 else (s.1 : ℝ) / den

/-- An opposite-trading finding (presentation fields omitted). -/
structure OppFinding where
  partner_a : String
  partner_b : String
  client_a : String
  client_b : String
  confidence_score : ℝ
  timing_correlation : ℚ
  opposite_trade_ratio : ℚ
  pnl_correlation : ℝ
  num_opposite_pairs : Nat
  total_trades_analyzed : Nat
  estimated_fraud_value : ℚ

/-- Analysis of one cross-partner client pair in `detect_opposite_trading`
(both trade lists known non-empty there): compute the three metrics,
combine them with weights 0.3/0.4/0.3, and emit a finding when the score
reaches the threshold. -/
noncomputable def analyzePair (threshold : ℚ) (pa pb : String) (c1 c2 : Client) :
    Option (List OppFinding) := do
  let trades1 := c1.tradesD
  let trades2 := c2.tradesD
  let tc ← calculateTimingCorrelation trades1 trades2 10
  let ops ← detectOppositeDirections 10 trades1 trades2
  let pnl := calculatePnlCorrelation trades1 trades2
  let ratio : ℚ :=
    if 0 < min trades1.length trades2.length then
      (ops.length : ℚ) / ((min trades1.length trades2.length : Nat) : ℚ)
    else 0
  let score : ℝ := (tc : ℝ) * (3/10) + (ratio : ℝ) * (4/10) + max 0 (-pnl) * (3/10)
  if (threshold : ℝ) ≤ score then
    pure [{ partner_a := pa, partner_b := pb, client_a := c1.client_id,
            client_b := c2.client_id, confidence_score := score,
            timing_correlation := tc, opposite_trade_ratio := ratio,
            pnl_correlation := pnl, num_opposite_pairs := ops.length,
            total_trades_analyzed := trades1.length + trades2.length,
            estimated_fraud_value :=
              (|(trades1.map Trade.pl).sum| + |(trades2.map Trade.pl).sum|) * (1/2) }]
  else pure []

/-- `detect_opposite_trading`: group by partner, scan unordered partner
pairs and the full client cross product (skipping clients with no trades),
then sort by descending confidence. -/
noncomputable def detectOppositeTrading (clients : List Client) (threshold : ℚ) :
    Option (List OppFinding) := do
  let fs ← flatMapM (fun pq =>
      flatMapM (fun c1 =>
        if c1.tradesD = [] then some []
        else flatMapM (fun c2 =>
          if c2.tradesD = [] then some []
          else analyzePair threshold pq.1 pq.2 c1 c2)
          (clients.filter (fun c => c.referred_by = pq.2)))
        (clients.filter (fun c => c.referred_by = pq.1)))
    (ordPairs (partnerKeys clients))
  pure (fs.mergeSort (fun a b => decide (b.confidence_score ≤ a.confidence_score)))

/-! ## Specification-side definitions (for the refinement claim C6) -/

/-- Modelled from the spec (§4.4 penalty table): trade-count band. -/
def specTradePenalty (n : Nat) : ℤ :=
  if n = 0 then 40 else if n < 5 then 25 else if n < 10 then 10 else 0

/-- Modelled from the spec (§4.4 penalty table): volume-ratio band. -/
def specVolumePenalty (trades : List Trade) (deposit : ℚ) : ℤ :=
  if trades ≠ [] ∧ deposit > 0 then
    if (trades.map Trade.volume).sum / deposit < 1/10 then 20
    else if (trades.map Trade.volume).sum / deposit < 1/2 then 10
    else 0
  else 0

/-- Modelled from the spec (§4.4 penalty table): withdrawal-speed band,
with `days_to_withdrawal` computed the way the code computes it. -/
def specWithdrawalPenalty (now : Int) (c : Client) : ℤ :=
  if truthy c.withdrawal_date ∧ truthy c.signup_date then
    if Int.fdiv (parseTimestampNow now ((c.withdrawal_date).getD "")
        - parseTimestampNow now ((c.signup_date).getD "")) 86400 ≤ 3 then 30
    else if Int.fdiv (parseTimestampNow now ((c.withdrawal_date).getD "")
        - parseTimestampNow now ((c.signup_date).getD "")) 86400 ≤ 7 then 15
    else 0
  else 0

/-- Modelled from the spec (§4.4 penalty table): balance-ratio band. -/
def specBalancePenalty (deposit balance : ℚ) : ℤ :=
  if deposit > 0 then
    if balance / deposit < 1/5 then 15
    else if balance / deposit < 1/2 then 5
    else 0
  else 0

/-- Modelled from the spec (§4.4): 100 minus the six per-metric band
penalties, clamped to at least 0. -/
def specQualityScore (now : Int) (c : Client) : ℤ :=
  max 0 (100 - (specTradePenalty c.tradesD.length
    + specVolumePenalty c.tradesD (c.initial_deposit.getD 0)
    + specWithdrawalPenalty now c
    + specBalancePenalty (c.initial_deposit.getD 0) (c.current_balance.getD 0)
    + (if ¬ c.is_active.getD true then 10 else 0)
    + (if c.initial_deposit.getD 0 < 200 then 10 else 0)))

/-- Modelled from the spec (§4.4): `is_suspicious = score < 50` (on the
unclamped sum, which is equivalent on the clamped one). -/
def specSuspicious (now : Int) (c : Client) : Bool :=
  decide (100 - (specTradePenalty c.tradesD.length
    + specVolumePenalty c.tradesD (c.initial_deposit.getD 0)
    + specWithdrawalPenalty now c
    + specBalancePenalty (c.initial_deposit.getD 0) (c.current_balance.getD 0)
    + (if ¬ c.is_active.getD true then 10 else 0)
    + (if c.initial_deposit.getD 0 < 200 then 10 else 0)) < 50)

/-- A client all of whose present, non-empty date fields parse: on such a
client the bonus-abuse scoring never consults `datetime.now()`. -/
def datesOK (c : Client) : Prop :=
  (truthy c.withdrawal_date ∧ truthy c.signup_date) →
    ((parseTimestamp ((c.withdrawal_date).getD "")).isSome ∧
     (parseTimestamp ((c.signup_date).getD "")).isSome)

instance (c : Client) : Decidable (datesOK c) := by
  unfold datesOK; infer_instance

/-! ## Concrete fixtures used by counterexamples and witnesses -/

/-- A benign, fully parseable trade. -/
def tGood : Trade :=
  { trade_id := "t1", client_id := "c", timestamp := "2024-01-15T10:00:00",
    instrument := "EUR/USD", direction := "BUY", volume := 1, price := 1,
    profit_loss := some 100 }

/-- The spec §8 example client: 0 trades, inactive, deposit 150, balance
20, withdrawal 2 days after signup. -/
def exampleClient : Client :=
  { client_id := "EX", name := none, referred_by := "P",
    signup_date := some "2024-01-01T00:00:00", initial_deposit := some 150,
    current_balance := some 20, is_active := some false,
    withdrawal_date := some "2024-01-03T00:00:00", trades := some [] }

/-- A client whose `is_active` field is missing. -/
def c7Client : Client :=
  { client_id := "C7", name := none, referred_by := "P7",
    signup_date := none, initial_deposit := none,
    current_balance := none, is_active := none,
    withdrawal_date := none, trades := some [] }

/-- The partner referring `c7Client`. -/
def p7 : Partner := { partner_id := "P7", name := none, type := none }

/-- A trade whose timestamp never matters for the bonus detector. -/
def tPlain : Trade :=
  { trade_id := "p", client_id := "c", timestamp := "x",
    instrument := "EUR/USD", direction := "BUY", volume := 1, price := 1,
    profit_loss := some 0 }

/-- A client with a parseable signup date but an unparseable withdrawal
date: its quality score depends on the current time. -/
def c3Client : Client :=
  { client_id := "C3", name := none, referred_by := "P",
    signup_date := some "2024-01-01T00:00:00", initial_deposit := none,
    current_balance := none, is_active := some true,
    withdrawal_date := some "garbage",
    trades := some [tPlain, tPlain, tPlain] }

/-- A client with two trades and two present but unparseable dates. -/
def c2Bonus : Client :=
  { client_id := "C2B", name := none, referred_by := "P",
    signup_date := some "bad-signup", initial_deposit := none,
    current_balance := none, is_active := some true,
    withdrawal_date := some "bad-withdrawal",
    trades := some [tPlain, tPlain] }

/-- A trade with an unparseable timestamp. -/
def tBadTs : Trade :=
  { trade_id := "bad", client_id := "c", timestamp := "not-a-timestamp",
    instrument := "EUR/USD", direction := "BUY", volume := 1, price := 1,
    profit_loss := some 0 }

/-- Client under partner `P1` holding the unparseable trade. -/
def cOppBad : Client :=
  { client_id := "OB", name := none, referred_by := "P1",
    signup_date := none, initial_deposit := none, current_balance := none,
    is_active := none, withdrawal_date := none, trades := some [tBadTs] }

/-- Client under partner `P2` holding a parseable trade. -/
def cOppGood : Client :=
  { client_id := "OG", name := none, referred_by := "P2",
    signup_date := none, initial_deposit := none, current_balance := none,
    is_active := none, withdrawal_date := none, trades := some [tGood] }

/-- A parseable mirror trade (all copies identical). -/
def mTrade : Trade :=
  { trade_id := "m", client_id := "c", timestamp := "2024-01-15T10:00:00",
    instrument := "EUR/USD", direction := "BUY", volume := 1, price := 1,
    profit_loss := some 10 }

/-- A mirror-detector client with ten identical parseable trades. -/
def mwClient (cid : String) : Client :=
  { client_id := cid, name := none, referred_by := "P",
    signup_date := none, initial_deposit := some 1000,
    current_balance := some 1000, is_active := some true,
    withdrawal_date := none,
    trades := some (List.replicate 10 mTrade) }

/-- The match record produced when `mTrade` is matched with itself. -/
def mwMatch : MirrorMatch :=
  { trade1 := mTrade, trade2 := mTrade, similarity := 1,
    instrument := "EUR/USD", direction := "BUY" }

/-- A mirror-detector client with ten trades, the first unparseable. -/
def mwBadClient : Client :=
  { client_id := "MB", name := none, referred_by := "P",
    signup_date := none, initial_deposit := some 1000,
    current_balance := some 1000, is_active := some true,
    withdrawal_date := none,
    trades := some (tBadTs :: List.replicate 9 mTrade) }

/-- The mirror-trading finding produced on `[mwClient "MA", mwClient "MC"]`
with group size 2. -/
def mwFinding : MirrorFinding :=
  { partner_id := "P", group_size := 2, client_ids := ["MA", "MC"],
    confidence_score := 1, total_trades := 20,
    common_instruments := ["EUR/USD"],
    estimated_fraud_value := 60 }

/-- A client with an empty trade list (used to instantiate the clustering
lemmas on a small concrete matrix). -/
def mcEmpty (cid : String) : Client :=
  { client_id := cid, name := none, referred_by := "P",
    signup_date := none, initial_deposit := none, current_balance := none,
    is_active := some true, withdrawal_date := none, trades := some [] }

/-- The opposite-trading scenario of spec §8: one trade per client, same
instrument, opposite directions, equal volume, two minutes apart, P&L +100
and −100. -/
def tScnA : Trade :=
  { trade_id := "a", client_id := "CA", timestamp := "2024-01-15T10:00:00",
    instrument := "EUR/USD", direction := "BUY", volume := 1, price := 1,
    profit_loss := some 100 }

/-- The matching opposite trade of the scenario. -/
def tScnB : Trade :=
  { trade_id := "b", client_id := "CB", timestamp := "2024-01-15T10:02:00",
    instrument := "EUR/USD", direction := "SELL", volume := 1, price := 1,
    profit_loss := some (-100) }

/-- Scenario client A (partner `P1`). -/
def scnClientA : Client :=
  { client_id := "CA", name := none, referred_by := "P1",
    signup_date := none, initial_deposit := none, current_balance := none,
    is_active := none, withdrawal_date := none, trades := some [tScnA] }

/-- Scenario client B (partner `P2`). -/
def scnClientB : Client :=
  { client_id := "CB", name := none, referred_by := "P2",
    signup_date := none, initial_deposit := none, current_balance := none,
    is_active := none, withdrawal_date := none, trades := some [tScnB] }

/-- The scenario snapshot. -/
def scnClients : List Client := [scnClientA, scnClientB]

/-- The finding the detector produces on the scenario snapshot:
`timing_corr = 0.8`, `opposite_ratio = 1`, `pnl_corr = 0` (fewer than two
trades per side), confidence `0.64`. -/
noncomputable def scnFinding : OppFinding :=
  { partner_a := "P1", partner_b := "P2", client_a := "CA", client_b := "CB",
    confidence_score := 16/25, timing_correlation := 4/5,
    opposite_trade_ratio := 1, pnl_correlation := 0,
    num_opposite_pairs := 1, total_trades_analyzed := 2,
    estimated_fraud_value := 100 }

/-- The opposite pair detected in the scenario snapshot. -/
def scnPair : OppositePair :=
  { trade1 := tScnA, trade2 := tScnB, instrument := "EUR/USD",
    time_diff_seconds := 120, volume_similarity := 1 }

/-- Trade used by the confidence-above-one snapshot (P&L 0 keeps the
Pearson guard active). -/
def tOneA : Trade :=
  { trade_id := "u", client_id := "UA", timestamp := "2024-01-15T10:00:00",
    instrument := "EUR/USD", direction := "BUY", volume := 1, price := 1,
    profit_loss := some 0 }

/-- Opposite-direction trade at the same instant. -/
def tOneB : Trade :=
  { trade_id := "v", client_id := "UB", timestamp := "2024-01-15T10:00:00",
    instrument := "EUR/USD", direction := "SELL", volume := 1, price := 1,
    profit_loss := some 0 }

/-- The opposite pair detected in the above-one snapshot. -/
def cexPair : OppositePair :=
  { trade1 := tOneA, trade2 := tOneB, instrument := "EUR/USD",
    time_diff_seconds := 0, volume_similarity := 1 }

/-- Client with a single trade (partner `P1`). -/
def cexClientA : Client :=
  { client_id := "UA", name := none, referred_by := "P1",
    signup_date := none, initial_deposit := none, current_balance := none,
    is_active := none, withdrawal_date := none, trades := some [tOneA] }

/-- Client with two opposite trades (partner `P2`). -/
def cexClientB : Client :=
  { client_id := "UB", name := none, referred_by := "P2",
    signup_date := none, initial_deposit := none, current_balance := none,
    is_active := none, withdrawal_date := none, trades := some [tOneB, tOneB] }

/-- Snapshot on which the opposite-trading confidence exceeds 1: the two
cross pairs both qualify as opposite pairs while `min(|tradesA|, |tradesB|)
= 1`, so `opposite_ratio = 2`. -/
def cexClients : List Client := [cexClientA, cexClientB]

/-- The finding produced on `cexClients`: confidence
`0.3·1 + 0.4·2 + 0.3·0 = 1.1 > 1`. -/
noncomputable def cexFinding : OppFinding :=
  { partner_a := "P1", partner_b := "P2", client_a := "UA", client_b := "UB",
    confidence_score := 11/10, timing_correlation := 1,
    opposite_trade_ratio := 2, pnl_correlation := 0,
    num_opposite_pairs := 2, total_trades_analyzed := 3,
    estimated_fraud_value := 0 }

/-! ## C9: self-similarity -/

/-- C9: comparing any trade with positive volume and a parseable timestamp
to an identical copy of itself yields the maximum pairwise similarity 1
(window 5 minutes, the mirror detector's default). -/
theorem C9_self_similarity (t : Trade) (hv : 0 < t.volume)
    (hp : (parseTimestamp t.timestamp).isSome) :
    calculateTradeSimilarity 5 t t = some 1 := by
  obtain ⟨s, hs⟩ := Option.isSome_iff_exists.mp hp
  have hne : t.volume ≠ 0 := ne_of_gt hv
  simp only [calculateTradeSimilarity, max_self, min_self, hs, if_neg hne, div_self hne,
    sub_self, Int.natAbs_zero, Nat.cast_zero, zero_div]
  norm_num

/-- C9 witness: the self-similarity theorem instantiated at the concrete
trade `tGood`. -/
theorem C9_self_similarity_witness :
    0 < tGood.volume ∧ (parseTimestamp tGood.timestamp).isSome ∧
      calculateTradeSimilarity 5 tGood tGood = some 1 :=
  ⟨by decide, by decide, C9_self_similarity tGood (by decide) (by decide)⟩

/-! ## C6: client quality score -/

/-- C6: for every client the computed quality score equals the spec's
exclusive-band penalty table (only the first matching threshold per metric
applies) clamped to at least 0, lies in [0, 100], and the client is marked
suspicious exactly when the score is below 50; in particular the spec §8
example client (0 trades, inactive, deposit 150, balance 20, withdrawal 2
days after signup) scores 0 and is suspicious. -/
theorem C6_quality_score :
    (∀ (now : Int) (c : Client),
      (calculateClientQualityScore now c).quality_score = specQualityScore now c ∧
      0 ≤ (calculateClientQualityScore now c).quality_score ∧
      (calculateClientQualityScore now c).quality_score ≤ 100 ∧
      ((calculateClientQualityScore now c).is_suspicious = true ↔
        (calculateClientQualityScore now c).quality_score < 50)) ∧
    (calculateClientQualityScore 0 exampleClient).quality_score = 0 ∧
    (calculateClientQualityScore 0 exampleClient).is_suspicious = true := by
  have hp1 : ∀ n : Nat, 0 ≤ specTradePenalty n := by
    intro n; unfold specTradePenalty; split_ifs <;> omega
  have hp2 : ∀ ts d, 0 ≤ specVolumePenalty ts d := by
    intro ts d; unfold specVolumePenalty; split_ifs <;> omega
  have hp3 : ∀ now c, 0 ≤ specWithdrawalPenalty now c := by
    intro now c; unfold specWithdrawalPenalty; split_ifs <;> omega
  have hp4 : ∀ d b, 0 ≤ specBalancePenalty d b := by
    intro d b; unfold specBalancePenalty; split_ifs <;> omega
  have hex : (calculateClientQualityScore 0 exampleClient).quality_score = 0 ∧
      (calculateClientQualityScore 0 exampleClient).is_suspicious = true := by
    have hA : parseTimestamp ("2024-01-01T00:00:00") = some 63839664000 := by decide
    have hB : parseTimestamp ("2024-01-03T00:00:00") = some 63839836800 := by decide
    have hdays : Int.fdiv 172800 86400 = 2 := by decide
    have hsA : ("2024-01-01T00:00:00" : String) ≠ "" := by decide
    have hsB : ("2024-01-03T00:00:00" : String) ≠ "" := by decide
    simp only [calculateClientQualityScore, exampleClient, Client.tradesD, truthy,
      parseTimestampNow, hA, hB, Option.getD_some]
    norm_num [hdays, hsA, hsB]
  refine ⟨fun now c => ?_, hex.1, hex.2⟩
  have heq : (calculateClientQualityScore now c).quality_score = specQualityScore now c := by
    simp only [calculateClientQualityScore, specQualityScore, specTradePenalty,
      specVolumePenalty, specWithdrawalPenalty, specBalancePenalty]
    congr 1
    ring
  have hsusp : ((calculateClientQualityScore now c).is_suspicious = true ↔
      (calculateClientQualityScore now c).quality_score < 50) := by
    simp only [calculateClientQualityScore, decide_eq_true_eq]
    exact ⟨fun h => max_lt_iff.mpr ⟨by norm_num, h⟩, fun h => (max_lt_iff.mp h).2⟩
  refine ⟨heq, ?_, ?_, hsusp⟩
  · simp only [calculateClientQualityScore]
    exact le_max_left 0 _
  · rw [heq]; unfold specQualityScore
    have h1 := hp1 c.tradesD.length
    have h2 := hp2 c.tradesD (c.initial_deposit.getD 0)
    have h3 := hp3 now c
    have h4 := hp4 (c.initial_deposit.getD 0) (c.current_balance.getD 0)
    have h5 : (0:ℤ) ≤ if ¬ c.is_active.getD true then 10 else 0 := by split_ifs <;> omega
    have h6 : (0:ℤ) ≤ if c.initial_deposit.getD 0 < 200 then 10 else 0 := by
      split_ifs <;> omega
    exact max_le (by norm_num) (by omega)

/-! ## C7: default for missing `is_active` -/

/-- C7 amended: a missing `is_active` resolves to `true` in the quality
score (metrics and flags) and in the partner-evidence inactive count, but
to `false` in the conversion-rate active count — the defaults are coerced
differently across the detector. -/
theorem C7_is_active_defaults (now : Int) (c : Client) (h : c.is_active = none) :
    (calculateClientQualityScore now c).is_active = true ∧
    "inactive_account" ∉ (calculateClientQualityScore now c).flags ∧
    activeCount [c] = 0 ∧ evidenceInactiveCount [c] = 0 := by
  refine ⟨?_, ?_, ?_, ?_⟩
  · simp [calculateClientQualityScore, h]
  · intro hmem
    simp only [calculateClientQualityScore, h, Option.getD_none, List.mem_append] at hmem
    rcases hmem with ((((h1 | h2) | h3) | h4) | h5) | h6
    · revert h1; split_ifs <;> simp_all
    · revert h2; split_ifs <;> simp_all
    · revert h3; split_ifs <;> simp_all
    · revert h4; split_ifs <;> simp_all
    · revert h5; split_ifs <;> simp_all
    · revert h6; split_ifs <;> simp_all
  · simp [activeCount, h]
  · simp [evidenceInactiveCount, h]

/-- C7 witness: the default-mismatch theorem instantiated at the concrete
client `c7Client` (whose `is_active` field is absent). -/
theorem C7_is_active_defaults_witness :
    c7Client.is_active = none ∧
    ((calculateClientQualityScore 0 c7Client).is_active = true ∧
     "inactive_account" ∉ (calculateClientQualityScore 0 c7Client).flags ∧
     activeCount [c7Client] = 0 ∧ evidenceInactiveCount [c7Client] = 0) :=
  ⟨rfl, C7_is_active_defaults 0 c7Client rfl⟩

/-- C7 counterexample: the claim fails — for the client `c7Client` whose
`is_active` is missing, the quality score resolves it to `true` (no
inactivity evidence), while the partner rollup's conversion rate counts the
very same client as inactive, yielding `conversion_rate = 0` for its sole
referral. -/
theorem C7_counterexample :
    (calculateClientQualityScore 0 c7Client).is_active = true ∧
    (analyzePartnerReferralQuality 0 [p7] [c7Client]).map
      (fun a => a.conversion_rate) = [0] := by
  constructor
  · simp [calculateClientQualityScore, c7Client]
  · have hq : (calculateClientQualityScore 0 c7Client).is_suspicious = false := by decide
    simp only [analyzePartnerReferralQuality, p7, c7Client, activeCount]
    norm_num [List.filterMap, List.filter, hq]

/-! ## C3: determinism -/

/-- On a client whose present, non-empty dates parse, the quality score
does not depend on the current time. -/
theorem qualityScore_now_invariant (now₁ now₂ : Int) (c : Client) (h : datesOK c) :
    calculateClientQualityScore now₁ c = calculateClientQualityScore now₂ c := by
  unfold calculateClientQualityScore
  by_cases hc : truthy c.withdrawal_date ∧ truthy c.signup_date
  · obtain ⟨hw', hs'⟩ := h hc
    obtain ⟨w, hw⟩ := Option.isSome_iff_exists.mp hw'
    obtain ⟨s, hs⟩ := Option.isSome_iff_exists.mp hs'
    simp only [parseTimestampNow, hw, hs, Option.getD_some]
  · simp only [if_neg hc]

/-- The suspicious-client list does not depend on the current time when
all dates parse. -/
theorem pattern_now_invariant (now₁ now₂ : Int) (clients : List Client)
    (h : ∀ c ∈ clients, datesOK c) :
    detectBonusAbusePattern now₁ clients = detectBonusAbusePattern now₂ clients := by
  unfold detectBonusAbusePattern
  congr 1
  apply List.filterMap_congr
  intro c hc
  rw [qualityScore_now_invariant now₁ now₂ c (h c hc)]

/-- The partner analysis does not depend on the current time when all
dates parse. -/
theorem partner_now_invariant (now₁ now₂ : Int) (partners : List Partner)
    (clients : List Client) (h : ∀ c ∈ clients, datesOK c) :
    analyzePartnerReferralQuality now₁ partners clients
      = analyzePartnerReferralQuality now₂ partners clients := by
  unfold analyzePartnerReferralQuality
  congr 1
  apply List.filterMap_congr
  intro p _
  have hscore : ∀ c ∈ clients.filter (fun c => c.referred_by = p.partner_id),
      calculateClientQualityScore now₁ c = calculateClientQualityScore now₂ c :=
    fun c hc => qualityScore_now_invariant _ _ c (h c (List.mem_of_mem_filter hc))
  have h1 : (clients.filter (fun c => c.referred_by = p.partner_id)).map
        (calculateClientQualityScore now₁)
      = (clients.filter (fun c => c.referred_by = p.partner_id)).map
        (calculateClientQualityScore now₂) :=
    List.map_congr_left hscore
  have h2 : (clients.filter (fun c => c.referred_by = p.partner_id)).filter
        (fun c => (calculateClientQualityScore now₁ c).is_suspicious)
      = (clients.filter (fun c => c.referred_by = p.partner_id)).filter
        (fun c => (calculateClientQualityScore now₂ c).is_suspicious) :=
    List.filter_congr (fun c hc => by rw [hscore c hc])
  simp only [h1, h2]

/-- C3 amended: the bonus-abuse detector is a deterministic function of the
snapshot and the current time, and on snapshots all of whose present dates
parse it does not depend on the current time at all.  (The opposite- and
mirror-trading detectors are modelled without any `now` parameter: they
read nothing but the snapshot.)  The original claim fails because an
unparseable date is replaced by `datetime.now()`, see the counterexample. -/
theorem C3_determinism (now₁ now₂ : Int) (clients : List Client) (partners : List Partner)
    (h : ∀ c ∈ clients, datesOK c) :
    detectBonusAbuse now₁ clients partners = detectBonusAbuse now₂ clients partners := by
  unfold detectBonusAbuse
  rw [pattern_now_invariant now₁ now₂ clients h,
    partner_now_invariant now₁ now₂ partners clients h]

/-- C3 witness: determinism instantiated at a concrete snapshot whose dates
all parse, evaluated at two different current times. -/
theorem C3_determinism_witness :
    (∀ c ∈ [exampleClient], datesOK c) ∧
    detectBonusAbuse 1 [exampleClient] [] = detectBonusAbuse 2 [exampleClient] [] :=
  ⟨by decide, C3_determinism 1 2 [exampleClient] [] (by decide)⟩

/-- C3 counterexample: the claim as stated is false — the bonus-abuse
detector consults the current time.  On the snapshot `[c3Client]` (whose
withdrawal date does not parse), running at signup time flags the client
(`days_to_withdrawal = 0`), while running ten days later does not, so the
two reports differ. -/
theorem C3_counterexample :
    detectBonusAbuse 63839664000 [c3Client] []
      ≠ detectBonusAbuse 63840528000 [c3Client] [] := by
  have hq1 : (calculateClientQualityScore 63839664000 c3Client).is_suspicious = true := by
    decide
  have hq2 : (calculateClientQualityScore 63840528000 c3Client).is_suspicious = false := by
    decide
  intro h
  have hlen := congrArg (fun r => r.total_suspicious_clients) h
  simp [detectBonusAbuse, detectBonusAbusePattern, List.filterMap, hq1, hq2] at hlen

/-! ## C2: timestamp parse failure -/

/-- C2 counterexample: the claim as stated is false — an unparseable
timestamp aborts the opposite-trading run (the `ValueError` raised by
`parse_timestamp` propagates out of `detect_opposite_trading`): on the
snapshot `[cOppBad, cOppGood]` the detector produces no report at all
instead of contributing 0 correlation. -/
theorem C2_counterexample :
    detectOppositeTrading [cOppBad, cOppGood] (3/5) = none := rfl

/-- C2 amended: a timestamp parse failure aborts the opposite-trading and
mirror-trading runs (no fail-soft); only the bonus-abuse detector survives
it, and there the unparseable record is not excluded from the
time-sensitive check — both unparseable dates are replaced by the current
time, so `days_to_withdrawal = 0` and the `immediate_withdrawal` flag
fires at every current time; trade-count checks never consult timestamps
(`num_trades` is still 2). -/
theorem C2_timestamp_failure :
    detectOppositeTrading [cOppBad, cOppGood] (3/5) = none ∧
    detectMirrorGroup [mwBadClient, mwClient "MA", mwClient "MC"] 3 (1/2) = none ∧
    (∀ now : Int,
      (calculateClientQualityScore now c2Bonus).flags
        = ["minimal_trading", "immediate_withdrawal", "minimal_deposit"] ∧
      (calculateClientQualityScore now c2Bonus).num_trades = 2) := by
  refine ⟨rfl, by decide, fun now => ⟨?_, rfl⟩⟩
  have hbw : parseTimestamp ("bad-withdrawal") = none := by decide
  have hbs : parseTimestamp ("bad-signup") = none := by decide
  have hne1 : ("bad-withdrawal" : String) ≠ "" := by decide
  have hne2 : ("bad-signup" : String) ≠ "" := by decide
  norm_num [calculateClientQualityScore, c2Bonus, truthy, parseTimestampNow, hbw, hbs,
    hne1, hne2, Client.tradesD, tPlain, Int.zero_fdiv]

/-! ## C8: report truncation and ordering -/

/-- The suspicious-client list is sorted ascending by quality score. -/
theorem pattern_sorted (now : Int) (clients : List Client) :
    (detectBonusAbusePattern now clients).Pairwise
      (fun a b => a.quality_score ≤ b.quality_score) := by
  unfold detectBonusAbusePattern
  refine List.Pairwise.imp (fun h => of_decide_eq_true h) (List.sorted_mergeSort ?_ ?_ _)
  · intro a b c hab hbc
    rw [decide_eq_true_eq] at *
    exact le_trans hab hbc
  · intro a b
    simp only [Bool.or_eq_true, decide_eq_true_eq]
    exact le_total _ _

/-- The partner list is sorted descending by suspicious ratio. -/
theorem partner_sorted (now : Int) (partners : List Partner) (clients : List Client) :
    (analyzePartnerReferralQuality now partners clients).Pairwise
      (fun a b => b.suspicious_ratio ≤ a.suspicious_ratio) := by
  unfold analyzePartnerReferralQuality
  refine List.Pairwise.imp (fun h => of_decide_eq_true h) (List.sorted_mergeSort ?_ ?_ _)
  · intro a b c hab hbc
    rw [decide_eq_true_eq] at *
    exact le_trans hbc hab
  · intro a b
    simp only [Bool.or_eq_true, decide_eq_true_eq]
    exact le_total _ _

/-- C8: the bonus-abuse report's client-level list is the first 50 entries
of the full suspicious list sorted ascending by quality score (hence at
most 50 entries, the most suspicious ones), while the partner-level list
is the complete analysis, unbounded, sorted descending by suspicious
ratio. -/
theorem C8_report_shape (now : Int) (clients : List Client) (partners : List Partner) :
    (detectBonusAbuse now clients partners).suspicious_clients.length ≤ 50 ∧
    (detectBonusAbuse now clients partners).suspicious_clients
      = (detectBonusAbusePattern now clients).take 50 ∧
    (detectBonusAbuse now clients partners).suspicious_clients.Pairwise
      (fun a b => a.quality_score ≤ b.quality_score) ∧
    (detectBonusAbuse now clients partners).suspicious_partners
      = analyzePartnerReferralQuality now partners clients ∧
    (detectBonusAbuse now clients partners).suspicious_partners.Pairwise
      (fun a b => b.suspicious_ratio ≤ a.suspicious_ratio) := by
  refine ⟨?_, rfl, ?_, rfl, ?_⟩
  · exact List.length_take_le _ _
  · exact List.Pairwise.sublist (List.take_sublist _ _) (pattern_sorted now clients)
  · exact partner_sorted now partners clients

/-! ## C5: mirror cluster validity -/

/-- `mapOptM` success determines the result length. -/
theorem mapOptM_length {α β : Type _} {f : α → Option β} :
    ∀ (l : List α) (r : List β), mapOptM f l = some r → r.length = l.length := by
  intro l
  induction l with
  | nil =>
    intro r h
    simp only [mapOptM, Option.some.injEq] at h
    subst h; rfl
  | cons a as ih =>
    intro r h
    simp only [mapOptM, Option.bind_eq_bind] at h
    obtain ⟨b, _, h2⟩ := Option.bind_eq_some.mp h
    obtain ⟨rest, hrest, h3⟩ := Option.bind_eq_some.mp h2
    obtain rfl : b :: rest = r := by simpa using h3
    simp [ih rest hrest]

/-- `mapOptM` success determines every element (through `getD`). -/
theorem mapOptM_getD {α β : Type _} {f : α → Option β} (d : α) (e : β) :
    ∀ (l : List α) (r : List β), mapOptM f l = some r →
      ∀ i, i < l.length → f (l.getD i d) = some (r.getD i e) := by
  intro l
  induction l with
  | nil => intro r _ i hi; simp at hi
  | cons a as ih =>
    intro r h i hi
    simp only [mapOptM, Option.bind_eq_bind] at h
    obtain ⟨b, hb, h2⟩ := Option.bind_eq_some.mp h
    obtain ⟨rest, hrest, h3⟩ := Option.bind_eq_some.mp h2
    obtain rfl : b :: rest = r := by simpa using h3
    match i with
    | 0 => simpa using hb
    | i + 1 => exact ih rest hrest i (by simpa using hi)

/-- Row extraction from a successfully built similarity matrix. -/
theorem buildMirrorMatrix_row (pcl : List Client) (mat : List (List ℚ))
    (h : buildMirrorMatrix pcl = some mat) :
    ∀ k, k < pcl.length →
      mapOptM (fun l => if k = l then some 0 else if k < l then mirrorCell pcl k l
        else mirrorCell pcl l k) (List.range pcl.length) = some (mat.getD k []) := by
  unfold buildMirrorMatrix at h
  intro k hk
  have := mapOptM_getD 0 ([] : List ℚ) _ _ h k (by simpa using hk)
  rwa [List.getD_eq_getElem _ _ (by simpa using hk), List.getElem_range] at this

/-- Cell extraction from a successfully built similarity matrix. -/
theorem buildMirrorMatrix_cell (pcl : List Client) (mat : List (List ℚ))
    (h : buildMirrorMatrix pcl = some mat) :
    ∀ k l, k < pcl.length → l < pcl.length →
      (if k = l then some 0 else if k < l then mirrorCell pcl k l
        else mirrorCell pcl l k) = some (matrixEntry mat k l) := by
  intro k l hk hl
  have hr := buildMirrorMatrix_row pcl mat h k hk
  have := mapOptM_getD 0 (0 : ℚ) _ _ hr l (by simpa using hl)
  rwa [List.getD_eq_getElem _ _ (by simpa using hl), List.getElem_range] at this

/-- An out-of-range entry of a successfully built matrix is the default 0. -/
theorem buildMirrorMatrix_default (pcl : List Client) (mat : List (List ℚ))
    (h : buildMirrorMatrix pcl = some mat) (i j : Nat)
    (hout : ¬ (i < pcl.length ∧ j < pcl.length)) : matrixEntry mat i j = 0 := by
  have hlen : mat.length = pcl.length := by
    unfold buildMirrorMatrix at h
    simpa using mapOptM_length _ _ h
  by_cases hi : i < pcl.length
  · have hj : ¬ j < pcl.length := fun hj => hout ⟨hi, hj⟩
    have hri : (mat.getD i []).length = pcl.length := by
      rw [mapOptM_length _ _ (buildMirrorMatrix_row pcl mat h i hi), List.length_range]
    unfold matrixEntry
    rw [List.getD_eq_default (mat.getD i []) (0:ℚ) (by omega)]
  · unfold matrixEntry
    rw [List.getD_eq_default mat ([] : List ℚ) (by omega)]
    simp

/-- The constructed similarity matrix is symmetric. -/
theorem buildMirrorMatrix_symm (pcl : List Client) (mat : List (List ℚ))
    (h : buildMirrorMatrix pcl = some mat) (i j : Nat) :
    matrixEntry mat i j = matrixEntry mat j i := by
  have hcell := buildMirrorMatrix_cell pcl mat h
  by_cases hi : i < pcl.length
  · by_cases hj : j < pcl.length
    · rcases lt_trichotomy i j with hij | hij | hij
      · have h1 := hcell i j hi hj
        have h2 := hcell j i hj hi
        rw [if_neg (by omega), if_pos hij] at h1
        rw [if_neg (by omega), if_neg (by omega)] at h2
        have := h1.symm.trans h2
        simpa using this
      · simp [hij]
      · have h1 := hcell i j hi hj
        have h2 := hcell j i hj hi
        rw [if_neg (by omega), if_neg (by omega)] at h1
        rw [if_neg (by omega), if_pos hij] at h2
        have := h1.symm.trans h2
        simpa using this
    · rw [buildMirrorMatrix_default pcl mat h i j (by omega),
        buildMirrorMatrix_default pcl mat h j i (by omega)]
  · rw [buildMirrorMatrix_default pcl mat h i j (by omega),
      buildMirrorMatrix_default pcl mat h j i (by omega)]

/-- Pairwise-similarity invariant of the inner clustering loop: if the
current cluster is pairwise similar, so is the extended one. -/
theorem extendCluster_pairwise (M : Nat → Nat → ℚ) (hsym : ∀ i j, M i j = M j i)
    (ratio : ℚ) (clustered : List Nat) :
    ∀ (js cluster : List Nat),
      (∀ a ∈ cluster, ∀ b ∈ cluster, a ≠ b → ratio ≤ M a b) →
      ∀ a ∈ extendCluster M ratio clustered cluster js,
        ∀ b ∈ extendCluster M ratio clustered cluster js, a ≠ b → ratio ≤ M a b := by
  intro js
  induction js with
  | nil => intro cluster h; simpa [extendCluster] using h
  | cons j js ih =>
    intro cluster h
    simp only [extendCluster]
    split_ifs with h1 h2
    · exact ih cluster h
    · refine ih (cluster ++ [j]) ?_
      intro a ha b hb hab
      rcases List.mem_append.mp ha with ha' | ha' <;>
        rcases List.mem_append.mp hb with hb' | hb'
      · exact h a ha' b hb' hab
      · obtain rfl : b = j := by simpa using hb'
        rw [hsym]
        exact of_decide_eq_true (List.all_eq_true.mp h2 a ha')
      · obtain rfl : a = j := by simpa using ha'
        exact of_decide_eq_true (List.all_eq_true.mp h2 b hb')
      · obtain rfl : a = j := by simpa using ha'
        obtain rfl : b = a := by simpa using hb'
        exact absurd rfl hab
    · exact ih cluster h

/-- Pairwise-similarity invariant of the outer clustering loop. -/
theorem greedyAux_pairwise (M : Nat → Nat → ℚ) (hsym : ∀ i j, M i j = M j i)
    (ratio : ℚ) (size n : Nat) :
    ∀ (is clustered : List Nat) (acc : List (List Nat)),
      (∀ c ∈ acc, ∀ a ∈ c, ∀ b ∈ c, a ≠ b → ratio ≤ M a b) →
      ∀ c ∈ greedyAux M ratio size n is clustered acc,
        ∀ a ∈ c, ∀ b ∈ c, a ≠ b → ratio ≤ M a b := by
  intro is
  induction is with
  | nil =>
    intro clustered acc hacc c hc
    simp only [greedyAux] at hc
    exact hacc c hc
  | cons i is ih =>
    intro clustered acc hacc c hc
    simp only [greedyAux] at hc
    split_ifs at hc with h1 h2
    · exact ih clustered acc hacc c hc
    · refine ih _ _ ?_ c hc
      intro c' hc'
      rcases List.mem_append.mp hc' with hmem | hmem
      · exact hacc c' hmem
      · obtain rfl : c' = extendCluster M ratio clustered [i]
            (List.range' (i + 1) (n - (i + 1))) := by simpa using hmem
        refine extendCluster_pairwise M hsym ratio clustered _ [i] ?_
        intro a ha b hb hab
        obtain rfl : a = i := by simpa using ha
        obtain rfl : b = a := by simpa using hb
        exact absurd rfl hab
    · exact ih clustered acc hacc c hc

/-- C5: for every cluster emitted by the greedy clustering of
`detect_mirror_group` over the constructed similarity matrix, every
member's similarity to every other member (per that matrix) is at least
`min_mirror_ratio`. -/
theorem C5_cluster_validity (pcl : List Client) (mat : List (List ℚ)) (ratio : ℚ)
    (size : Nat) (hmat : buildMirrorMatrix pcl = some mat) (cluster : List Nat)
    (hc : cluster ∈ greedyClusters (matrixEntry mat) pcl.length ratio size)
    (a : Nat) (ha : a ∈ cluster) (b : Nat) (hb : b ∈ cluster) (hab : a ≠ b) :
    ratio ≤ matrixEntry mat a b := by
  have := greedyAux_pairwise (matrixEntry mat) (buildMirrorMatrix_symm pcl mat hmat)
    ratio size pcl.length (List.range pcl.length) [] [] (by simp)
  exact this cluster hc a ha b hb hab

/-- C5 witness: the cluster-validity theorem instantiated on the concrete
two-client matrix `[[0, 0], [0, 0]]` with mirror ratio 0, whose greedy
clustering emits the cluster `[0, 1]`. -/
theorem C5_cluster_validity_witness :
    buildMirrorMatrix [mcEmpty "A", mcEmpty "B"] = some [[0, 0], [0, 0]] ∧
    [0, 1] ∈ greedyClusters (matrixEntry [[0, 0], [0, 0]]) 2 0 2 ∧
    (0 : ℚ) ≤ matrixEntry [[0, 0], [0, 0]] 0 1 :=
  ⟨rfl, by decide,
    C5_cluster_validity [mcEmpty "A", mcEmpty "B"] [[0, 0], [0, 0]] 0 2 rfl
      [0, 1] (by decide) 0 (by decide) 1 (by decide) (by decide)⟩

/-! ## C10: greedy matching consumes each B-trade at most once -/

/-- A member of `enumFrom n l` has index below `n + l.length`. -/
theorem mem_enumFrom_lt {α : Type _} :
    ∀ (l : List α) (n : Nat) (p : Nat × α), p ∈ l.enumFrom n → p.1 < n + l.length := by
  intro l
  induction l with
  | nil => intro n p hp; simp [List.enumFrom] at hp
  | cons a as ih =>
    intro n p hp
    simp only [List.enumFrom, List.mem_cons] at hp
    rcases hp with rfl | hp
    · simp
    · have h' := ih (n + 1) p hp
      simp only [List.length_cons]
      omega

/-- The inner scan of the greedy matching returns either the incoming
candidate or a fresh unused index drawn from the enumerated list. -/
theorem bestUnused_cases (w : ℚ) (t1 : Trade) (used : List Nat) :
    ∀ (l : List (Nat × Trade)) (acc r : Option (Nat × Trade) × ℚ),
      bestUnused w t1 used l acc = some r →
      ∀ it, r.1 = some it → acc.1 = some it ∨ (it ∈ l ∧ it.1 ∉ used) := by
  intro l
  induction l with
  | nil =>
    intro acc r h it hit
    simp only [bestUnused, Option.some.injEq] at h
    subst h
    exact Or.inl hit
  | cons p ps ih =>
    intro acc r h it hit
    simp only [bestUnused] at h
    split_ifs at h with h1
    · rcases ih acc r h it hit with ha | hb
      · exact Or.inl ha
      · exact Or.inr ⟨List.mem_cons_of_mem _ hb.1, hb.2⟩
    · obtain ⟨s, _, h2⟩ := Option.bind_eq_some.mp h
      split_ifs at h2 with h3
      · rcases ih (some p, s) r h2 it hit with ha | hb
        · obtain rfl : p = it := by simpa using ha
          exact Or.inr ⟨List.mem_cons_self _ _, h1⟩
        · exact Or.inr ⟨List.mem_cons_of_mem _ hb.1, hb.2⟩
      · rcases ih acc r h2 it hit with ha | hb
        · exact Or.inl ha
        · exact Or.inr ⟨List.mem_cons_of_mem _ hb.1, hb.2⟩

/-- Invariant of the greedy-matching outer loop: the used set stays
duplicate-free and in range, and matches stay in bijection with it. -/
theorem fmtAux_bound (w minSim : ℚ) (trades2 : List Trade) :
    ∀ (ts : List Trade) (used : List Nat) (ms : List MirrorMatch)
      (st : List Nat × List MirrorMatch),
      fmtAux w minSim trades2 ts used ms = some st →
      used.Nodup → (∀ u ∈ used, u < trades2.length) → ms.length = used.length →
      st.2.length = st.1.length ∧ st.1.Nodup ∧ (∀ u ∈ st.1, u < trades2.length) ∧
        st.2.length ≤ ms.length + ts.length := by
  intro ts
  induction ts with
  | nil =>
    intro used ms st h hnd hlt hlen
    simp only [fmtAux, Option.some.injEq] at h
    subst h
    exact ⟨hlen, hnd, hlt, by simp⟩
  | cons t1 rest ih =>
    intro used ms st h hnd hlt hlen
    simp only [fmtAux] at h
    obtain ⟨best, hbest, h2⟩ := Option.bind_eq_some.mp h
    rcases hb1 : best.1 with _ | it
    · rw [hb1] at h2
      obtain ⟨e1, e2, e3, e4⟩ := ih used ms st h2 hnd hlt hlen
      exact ⟨e1, e2, e3, by simp only [List.length_cons]; omega⟩
    · rw [hb1] at h2
      have hcase := bestUnused_cases w t1 used trades2.enum (none, minSim) best hbest it hb1
      rcases hcase with hc | ⟨hmem, hnotused⟩
      · simp at hc
      · have hitlt : it.1 < trades2.length := by
          have h' := mem_enumFrom_lt trades2 0 it (by simpa [List.enum] using hmem)
          simpa using h'
        obtain ⟨e1, e2, e3, e4⟩ := ih (used ++ [it.1]) _ st h2
          (by simp [List.nodup_append, hnd, hnotused])
          (by intro u hu
              rcases List.mem_append.mp hu with hu | hu
              · exact hlt u hu
              · obtain rfl : u = it.1 := by simpa using hu
                exact hitlt)
          (by simp [hlen])
        refine ⟨e1, e2, e3, ?_⟩
        simp only [List.length_append, List.length_cons, List.length_nil] at e4
        simp only [List.length_cons]
        omega

/-- A duplicate-free list of naturals below `n` has at most `n` members. -/
theorem nodup_lt_length_le (l : List Nat) (n : Nat) (hnd : l.Nodup)
    (hlt : ∀ u ∈ l, u < n) : l.length ≤ n := by
  have h1 : l.toFinset ⊆ Finset.range n := by
    intro x hx
    simp only [List.mem_toFinset] at hx
    exact Finset.mem_range.mpr (hlt x hx)
  have h2 := Finset.card_le_card h1
  rwa [List.toFinset_card_of_nodup hnd, Finset.card_range] at h2

/-- The greedy matching returns at most `min |tradesA| |tradesB|` matches:
each B-index is consumed at most once. -/
theorem findMatchingTrades_length (w minSim : ℚ) (t1s t2s : List Trade)
    (m : List MirrorMatch) (h : findMatchingTrades w minSim t1s t2s = some m) :
    m.length ≤ t1s.length ∧ m.length ≤ t2s.length := by
  unfold findMatchingTrades at h
  obtain ⟨st, hst, hm⟩ := Option.map_eq_some'.mp h
  obtain ⟨e1, e2, e3, e4⟩ := fmtAux_bound w minSim t2s t1s [] [] st hst
    (by simp) (by simp) rfl
  subst hm
  constructor
  · simpa using e4
  · rw [e1]
    exact nodup_lt_length_le st.1 t2s.length e2 e3

/-- Every similarity-matrix cell value lies in `[0, 1]`. -/
theorem mirrorCell_bounds (pcl : List Client) (i j : Nat) (v : ℚ)
    (h : mirrorCell pcl i j = some v) : 0 ≤ v ∧ v ≤ 1 := by
  unfold mirrorCell at h
  obtain ⟨m, hm, h2⟩ := Option.bind_eq_some.mp h
  obtain rfl :
      (if 0 < min (pcl.getD i default).tradesD.length (pcl.getD j default).tradesD.length
        then (m.length : ℚ) /
          ((min (pcl.getD i default).tradesD.length (pcl.getD j default).tradesD.length
            : Nat) : ℚ)
        else 0) = v := by
    simpa using h2
  split_ifs with hmin
  · have hb := findMatchingTrades_length _ _ _ _ m hm
    constructor
    · positivity
    · rw [div_le_one (by exact_mod_cast hmin)]
      exact_mod_cast le_min hb.1 hb.2
  · norm_num

/-- Every entry of the constructed similarity matrix lies in `[0, 1]`. -/
theorem matrixEntry_bounds (pcl : List Client) (mat : List (List ℚ))
    (h : buildMirrorMatrix pcl = some mat) (i j : Nat) :
    0 ≤ matrixEntry mat i j ∧ matrixEntry mat i j ≤ 1 := by
  by_cases hin : i < pcl.length ∧ j < pcl.length
  · have hc := buildMirrorMatrix_cell pcl mat h i j hin.1 hin.2
    by_cases hij : i = j
    · rw [if_pos hij] at hc
      have h0 : matrixEntry mat i j = 0 := by
        have := hc.symm
        simpa using this
      rw [h0]
      norm_num
    · rw [if_neg hij] at hc
      by_cases hlt : i < j
      · rw [if_pos hlt] at hc
        exact mirrorCell_bounds pcl i j _ hc
      · rw [if_neg hlt] at hc
        exact mirrorCell_bounds pcl j i _ hc
  · rw [buildMirrorMatrix_default pcl mat h i j hin]
    norm_num

/-- Twice the number of ordered pairs of list positions. -/
theorem ordPairs_double {α : Type _} :
    ∀ (l : List α), 2 * (ordPairs l).length = l.length * (l.length - 1) := by
  intro l
  induction l with
  | nil => simp [ordPairs]
  | cons a as ih =>
    simp only [ordPairs, List.length_append, List.length_map, List.length_cons]
    rcases hm : as.length with _ | n
    · rw [hm] at ih
      simp at ih
      simp [ih]
    · rw [hm] at ih
      simp only [Nat.succ_sub_one] at ih ⊢
      have expand : (n + 1 + 1) * (n + 1) = (n + 1) * n + 2 * (n + 1) := by ring
      omega

/-- Membership extraction for monadic concatenation. -/
theorem flatMapM_mem {α β : Type _} {f : α → Option (List β)} :
    ∀ (l : List α) (r : List β), flatMapM f l = some r →
      ∀ b ∈ r, ∃ a ∈ l, ∃ r', f a = some r' ∧ b ∈ r' := by
  intro l
  induction l with
  | nil =>
    intro r h b hb
    simp only [flatMapM, Option.some.injEq] at h
    subst h
    simp at hb
  | cons a as ih =>
    intro r h b hb
    simp only [flatMapM, Option.bind_eq_bind] at h
    obtain ⟨r1, hr1, h2⟩ := Option.bind_eq_some.mp h
    obtain ⟨r2, hr2, h3⟩ := Option.bind_eq_some.mp h2
    obtain rfl : r1 ++ r2 = r := by simpa using h3
    rcases List.mem_append.mp hb with hb1 | hb2
    · exact ⟨a, List.mem_cons_self _ _, r1, hr1, hb1⟩
    · obtain ⟨a', ha', r', hr', hb'⟩ := ih r2 hr2 b hb2
      exact ⟨a', List.mem_cons_of_mem _ ha', r', hr', hb'⟩

/-- The confidence of a mirror finding is the mean of matrix cells over
cluster pairs, hence lies in `[0, 1]` when all cells do. -/
theorem mkMirrorFinding_confidence (pid : String) (pcl : List Client)
    (mat : List (List ℚ)) (cluster : List Nat)
    (hcells : ∀ i j, 0 ≤ matrixEntry mat i j ∧ matrixEntry mat i j ≤ 1) :
    0 ≤ (mkMirrorFinding pid pcl mat cluster).confidence_score ∧
    (mkMirrorFinding pid pcl mat cluster).confidence_score ≤ 1 := by
  unfold mkMirrorFinding
  dsimp only
  have hden : (1 : ℚ) ≤ max 1 (((cluster.length * (cluster.length - 1) : Nat) : ℚ) / 2) :=
    le_max_left _ _
  have hS0 : 0 ≤ ((ordPairs cluster).map (fun p => matrixEntry mat p.1 p.2)).sum := by
    apply List.sum_nonneg
    intro x hx
    obtain ⟨p, _, rfl⟩ := List.mem_map.mp hx
    exact (hcells p.1 p.2).1
  have hScount : ((ordPairs cluster).map (fun p => matrixEntry mat p.1 p.2)).sum
      ≤ ((ordPairs cluster).length : ℚ) := by
    have : ((ordPairs cluster).map (fun p => matrixEntry mat p.1 p.2)).sum
        ≤ ((ordPairs cluster).map (fun _ => (1 : ℚ))).sum := by
      apply List.sum_le_sum
      intro p _
      exact (hcells p.1 p.2).2
    simpa using this
  have hdd : ((cluster.length * (cluster.length - 1) : Nat) : ℚ) / 2
      = ((ordPairs cluster).length : ℚ) := by
    have h2 := ordPairs_double cluster
    have h3 : ((2 * (ordPairs cluster).length : Nat) : ℚ)
        = ((cluster.length * (cluster.length - 1) : Nat) : ℚ) := by
      exact_mod_cast congrArg (fun n : Nat => (n : ℚ)) h2
    push_cast at h3 ⊢
    linarith
  have hSden : ((ordPairs cluster).map (fun p => matrixEntry mat p.1 p.2)).sum
      ≤ max 1 (((cluster.length * (cluster.length - 1) : Nat) : ℚ) / 2) := by
    refine le_trans hScount (le_trans ?_ (le_max_right _ _))
    rw [hdd]
  constructor
  · positivity
  · rw [div_le_one (by positivity)]
    exact hSden

/-- Findings of the mirror detector come from qualifying clusters over a
successfully built matrix. -/
theorem detectMirrorGroup_mem (clients : List Client) (s : Nat) (ms : ℚ)
    (fs : List MirrorFinding) (f : MirrorFinding)
    (h : detectMirrorGroup clients s ms = some fs) (hf : f ∈ fs) :
    ∃ pid pcl mat cluster, buildMirrorMatrix pcl = some mat ∧
      f = mkMirrorFinding pid pcl mat cluster := by
  unfold detectMirrorGroup at h
  obtain ⟨l, hl, h2⟩ := Option.bind_eq_some.mp h
  obtain rfl : fs = l.mergeSort (fun a b => decide (b.confidence_score ≤ a.confidence_score)) := by
    simp only [Option.pure_def, Option.some.injEq] at h2
    exact h2.symm
  have hf' : f ∈ l := List.mem_mergeSort.mp hf
  obtain ⟨pid, _, r', hr', hfr⟩ := flatMapM_mem _ _ hl f hf'
  dsimp only at hr'
  split at hr'
  · have hr0 : r' = [] := by simpa using hr'.symm
    subst hr0
    simp at hfr
  · obtain ⟨mat, hmat, h3⟩ := Option.bind_eq_some.mp hr'
    have hr2 : r' = (greedyClusters (matrixEntry mat)
        ((clients.filter (fun c => decide (10 ≤ c.tradesD.length))).filter
          (fun c => decide (c.referred_by = pid))).length ms s).map
        (mkMirrorFinding pid ((clients.filter (fun c => decide (10 ≤ c.tradesD.length))).filter
          (fun c => decide (c.referred_by = pid))) mat) := by
      simpa using h3.symm
    subst hr2
    obtain ⟨cluster, _, rfl⟩ := List.mem_map.mp hfr
    exact ⟨pid, _, mat, cluster, hmat, rfl⟩

/-- C10: the greedy matching consumes each B-trade at most once, so the
number of matches is at most `min |tradesA| |tradesB|`; consequently every
similarity-matrix cell lies in `[0, 1]` and every mirror-trading
confidence score lies in `[0, 1]`. -/
theorem C10_matching_bounds :
    (∀ (w minSim : ℚ) (t1s t2s : List Trade) (m : List MirrorMatch),
      findMatchingTrades w minSim t1s t2s = some m →
        m.length ≤ min t1s.length t2s.length) ∧
    (∀ (pcl : List Client) (mat : List (List ℚ)),
      buildMirrorMatrix pcl = some mat →
        ∀ i j, 0 ≤ matrixEntry mat i j ∧ matrixEntry mat i j ≤ 1) ∧
    (∀ (clients : List Client) (s : Nat) (ms : ℚ) (fs : List MirrorFinding)
      (f : MirrorFinding), detectMirrorGroup clients s ms = some fs → f ∈ fs →
        0 ≤ f.confidence_score ∧ f.confidence_score ≤ 1) := by
  refine ⟨?_, ?_, ?_⟩
  · intro w minSim t1s t2s m h
    have := findMatchingTrades_length w minSim t1s t2s m h
    exact le_min this.1 this.2
  · intro pcl mat h i j
    exact matrixEntry_bounds pcl mat h i j
  · intro clients s ms fs f h hf
    obtain ⟨pid, pcl, mat, cluster, hmat, rfl⟩ := detectMirrorGroup_mem clients s ms fs f h hf
    exact mkMirrorFinding_confidence pid pcl mat cluster (matrixEntry_bounds pcl mat hmat)


/-! ## Concrete evaluation of the mirror pipeline (witness support) -/

theorem mw_parse : parseTimestamp ("2024-01-15T10:00:00") = some 63840909600 := by decide

theorem mw_sim : calculateTradeSimilarity 5 mTrade mTrade = some 1 := by
  norm_num [calculateTradeSimilarity, mTrade, mw_parse]

theorem c_lt : ((7:ℚ)/10 < 1) = True := by norm_num
theorem c_nlt : ((1:ℚ) < 1) = False := by norm_num

theorem mw_instr : mTrade.instrument = "EUR/USD" := rfl

theorem mw_dir : mTrade.direction = "BUY" := rfl

theorem mw_fmt10 : fmtAux 5 (7/10) [mTrade, mTrade, mTrade, mTrade, mTrade, mTrade, mTrade, mTrade, mTrade, mTrade] [] [0, 1, 2, 3, 4, 5, 6, 7, 8, 9] [mwMatch, mwMatch, mwMatch, mwMatch, mwMatch, mwMatch, mwMatch, mwMatch, mwMatch, mwMatch]
    = some ([0, 1, 2, 3, 4, 5, 6, 7, 8, 9], [mwMatch, mwMatch, mwMatch, mwMatch, mwMatch, mwMatch, mwMatch, mwMatch, mwMatch, mwMatch]) := by
  simp only [fmtAux]

set_option maxHeartbeats 1000000 in
theorem mw_fmt9 : fmtAux 5 (7/10) [mTrade, mTrade, mTrade, mTrade, mTrade, mTrade, mTrade, mTrade, mTrade, mTrade] [mTrade] [0, 1, 2, 3, 4, 5, 6, 7, 8] [mwMatch, mwMatch, mwMatch, mwMatch, mwMatch, mwMatch, mwMatch, mwMatch, mwMatch]
    = some ([0, 1, 2, 3, 4, 5, 6, 7, 8, 9], [mwMatch, mwMatch, mwMatch, mwMatch, mwMatch, mwMatch, mwMatch, mwMatch, mwMatch, mwMatch]) := by
  rw [fmtAux]
  norm_num only [bestUnused, mw_sim, mwMatch, mw_instr, mw_dir, List.enum,
    List.enumFrom, Option.bind_eq_bind, Option.some_bind, c_lt, c_nlt, List.mem_cons,
    List.mem_singleton, List.not_mem_nil, or_false, false_or, or_true, true_or, if_true,
    if_false, ite_true, ite_false, List.append_nil, List.nil_append, List.cons_append,
    List.singleton_append]
  exact mw_fmt10

set_option maxHeartbeats 1000000 in
theorem mw_fmt8 : fmtAux 5 (7/10) [mTrade, mTrade, mTrade, mTrade, mTrade, mTrade, mTrade, mTrade, mTrade, mTrade] [mTrade, mTrade] [0, 1, 2, 3, 4, 5, 6, 7] [mwMatch, mwMatch, mwMatch, mwMatch, mwMatch, mwMatch, mwMatch, mwMatch]
    = some ([0, 1, 2, 3, 4, 5, 6, 7, 8, 9], [mwMatch, mwMatch, mwMatch, mwMatch, mwMatch, mwMatch, mwMatch, mwMatch, mwMatch, mwMatch]) := by
  rw [fmtAux]
  norm_num only [bestUnused, mw_sim, mwMatch, mw_instr, mw_dir, List.enum,
    List.enumFrom, Option.bind_eq_bind, Option.some_bind, c_lt, c_nlt, List.mem_cons,
    List.mem_singleton, List.not_mem_nil, or_false, false_or, or_true, true_or, if_true,
    if_false, ite_true, ite_false, List.append_nil, List.nil_append, List.cons_append,
    List.singleton_append]
  exact mw_fmt9

set_option maxHeartbeats 1000000 in
theorem mw_fmt7 : fmtAux 5 (7/10) [mTrade, mTrade, mTrade, mTrade, mTrade, mTrade, mTrade, mTrade, mTrade, mTrade] [mTrade, mTrade, mTrade] [0, 1, 2, 3, 4, 5, 6] [mwMatch, mwMatch, mwMatch, mwMatch, mwMatch, mwMatch, mwMatch]
    = some ([0, 1, 2, 3, 4, 5, 6, 7, 8, 9], [mwMatch, mwMatch, mwMatch, mwMatch, mwMatch, mwMatch, mwMatch, mwMatch, mwMatch, mwMatch]) := by
  rw [fmtAux]
  norm_num only [bestUnused, mw_sim, mwMatch, mw_instr, mw_dir, List.enum,
    List.enumFrom, Option.bind_eq_bind, Option.some_bind, c_lt, c_nlt, List.mem_cons,
    List.mem_singleton, List.not_mem_nil, or_false, false_or, or_true, true_or, if_true,
    if_false, ite_true, ite_false, List.append_nil, List.nil_append, List.cons_append,
    List.singleton_append]
  exact mw_fmt8

set_option maxHeartbeats 1000000 in
theorem mw_fmt6 : fmtAux 5 (7/10) [mTrade, mTrade, mTrade, mTrade, mTrade, mTrade, mTrade, mTrade, mTrade, mTrade] [mTrade, mTrade, mTrade, mTrade] [0, 1, 2, 3, 4, 5] [mwMatch, mwMatch, mwMatch, mwMatch, mwMatch, mwMatch]
    = some ([0, 1, 2, 3, 4, 5, 6, 7, 8, 9], [mwMatch, mwMatch, mwMatch, mwMatch, mwMatch, mwMatch, mwMatch, mwMatch, mwMatch, mwMatch]) := by
  rw [fmtAux]
  norm_num only [bestUnused, mw_sim, mwMatch, mw_instr, mw_dir, List.enum,
    List.enumFrom, Option.bind_eq_bind, Option.some_bind, c_lt, c_nlt, List.mem_cons,
    List.mem_singleton, List.not_mem_nil, or_false, false_or, or_true, true_or, if_true,
    if_false, ite_true, ite_false, List.append_nil, List.nil_append, List.cons_append,
    List.singleton_append]
  exact mw_fmt7

set_option maxHeartbeats 1000000 in
theorem mw_fmt5 : fmtAux 5 (7/10) [mTrade, mTrade, mTrade, mTrade, mTrade, mTrade, mTrade, mTrade, mTrade, mTrade] [mTrade, mTrade, mTrade, mTrade, mTrade] [0, 1, 2, 3, 4] [mwMatch, mwMatch, mwMatch, mwMatch, mwMatch]
    = some ([0, 1, 2, 3, 4, 5, 6, 7, 8, 9], [mwMatch, mwMatch, mwMatch, mwMatch, mwMatch, mwMatch, mwMatch, mwMatch, mwMatch, mwMatch]) := by
  rw [fmtAux]
  norm_num only [bestUnused, mw_sim, mwMatch, mw_instr, mw_dir, List.enum,
    List.enumFrom, Option.bind_eq_bind, Option.some_bind, c_lt, c_nlt, List.mem_cons,
    List.mem_singleton, List.not_mem_nil, or_false, false_or, or_true, true_or, if_true,
    if_false, ite_true, ite_false, List.append_nil, List.nil_append, List.cons_append,
    List.singleton_append]
  exact mw_fmt6

set_option maxHeartbeats 1000000 in
theorem mw_fmt4 : fmtAux 5 (7/10) [mTrade, mTrade, mTrade, mTrade, mTrade, mTrade, mTrade, mTrade, mTrade, mTrade] [mTrade, mTrade, mTrade, mTrade, mTrade, mTrade] [0, 1, 2, 3] [mwMatch, mwMatch, mwMatch, mwMatch]
    = some ([0, 1, 2, 3, 4, 5, 6, 7, 8, 9], [mwMatch, mwMatch, mwMatch, mwMatch, mwMatch, mwMatch, mwMatch, mwMatch, mwMatch, mwMatch]) := by
  rw [fmtAux]
  norm_num only [bestUnused, mw_sim, mwMatch, mw_instr, mw_dir, List.enum,
    List.enumFrom, Option.bind_eq_bind, Option.some_bind, c_lt, c_nlt, List.mem_cons,
    List.mem_singleton, List.not_mem_nil, or_false, false_or, or_true, true_or, if_true,
    if_false, ite_true, ite_false, List.append_nil, List.nil_append, List.cons_append,
    List.singleton_append]
  exact mw_fmt5

set_option maxHeartbeats 1000000 in
theorem mw_fmt3 : fmtAux 5 (7/10) [mTrade, mTrade, mTrade, mTrade, mTrade, mTrade, mTrade, mTrade, mTrade, mTrade] [mTrade, mTrade, mTrade, mTrade, mTrade, mTrade, mTrade] [0, 1, 2] [mwMatch, mwMatch, mwMatch]
    = some ([0, 1, 2, 3, 4, 5, 6, 7, 8, 9], [mwMatch, mwMatch, mwMatch, mwMatch, mwMatch, mwMatch, mwMatch, mwMatch, mwMatch, mwMatch]) := by
  rw [fmtAux]
  norm_num only [bestUnused, mw_sim, mwMatch, mw_instr, mw_dir, List.enum,
    List.enumFrom, Option.bind_eq_bind, Option.some_bind, c_lt, c_nlt, List.mem_cons,
    List.mem_singleton, List.not_mem_nil, or_false, false_or, or_true, true_or, if_true,
    if_false, ite_true, ite_false, List.append_nil, List.nil_append, List.cons_append,
    List.singleton_append]
  exact mw_fmt4

set_option maxHeartbeats 1000000 in
theorem mw_fmt2 : fmtAux 5 (7/10) [mTrade, mTrade, mTrade, mTrade, mTrade, mTrade, mTrade, mTrade, mTrade, mTrade] [mTrade, mTrade, mTrade, mTrade, mTrade, mTrade, mTrade, mTrade] [0, 1] [mwMatch, mwMatch]
    = some ([0, 1, 2, 3, 4, 5, 6, 7, 8, 9], [mwMatch, mwMatch, mwMatch, mwMatch, mwMatch, mwMatch, mwMatch, mwMatch, mwMatch, mwMatch]) := by
  rw [fmtAux]
  norm_num only [bestUnused, mw_sim, mwMatch, mw_instr, mw_dir, List.enum,
    List.enumFrom, Option.bind_eq_bind, Option.some_bind, c_lt, c_nlt, List.mem_cons,
    List.mem_singleton, List.not_mem_nil, or_false, false_or, or_true, true_or, if_true,
    if_false, ite_true, ite_false, List.append_nil, List.nil_append, List.cons_append,
    List.singleton_append]
  exact mw_fmt3

set_option maxHeartbeats 1000000 in
theorem mw_fmt1 : fmtAux 5 (7/10) [mTrade, mTrade, mTrade, mTrade, mTrade, mTrade, mTrade, mTrade, mTrade, mTrade] [mTrade, mTrade, mTrade, mTrade, mTrade, mTrade, mTrade, mTrade, mTrade] [0] [mwMatch]
    = some ([0, 1, 2, 3, 4, 5, 6, 7, 8, 9], [mwMatch, mwMatch, mwMatch, mwMatch, mwMatch, mwMatch, mwMatch, mwMatch, mwMatch, mwMatch]) := by
  rw [fmtAux]
  norm_num only [bestUnused, mw_sim, mwMatch, mw_instr, mw_dir, List.enum,
    List.enumFrom, Option.bind_eq_bind, Option.some_bind, c_lt, c_nlt, List.mem_cons,
    List.mem_singleton, List.not_mem_nil, or_false, false_or, or_true, true_or, if_true,
    if_false, ite_true, ite_false, List.append_nil, List.nil_append, List.cons_append,
    List.singleton_append]
  exact mw_fmt2

set_option maxHeartbeats 1000000 in
theorem mw_fmt0 : fmtAux 5 (7/10) [mTrade, mTrade, mTrade, mTrade, mTrade, mTrade, mTrade, mTrade, mTrade, mTrade] [mTrade, mTrade, mTrade, mTrade, mTrade, mTrade, mTrade, mTrade, mTrade, mTrade] [] []
    = some ([0, 1, 2, 3, 4, 5, 6, 7, 8, 9], [mwMatch, mwMatch, mwMatch, mwMatch, mwMatch, mwMatch, mwMatch, mwMatch, mwMatch, mwMatch]) := by
  rw [fmtAux]
  norm_num only [bestUnused, mw_sim, mwMatch, mw_instr, mw_dir, List.enum,
    List.enumFrom, Option.bind_eq_bind, Option.some_bind, c_lt, c_nlt, List.mem_cons,
    List.mem_singleton, List.not_mem_nil, or_false, false_or, or_true, true_or, if_true,
    if_false, ite_true, ite_false, List.append_nil, List.nil_append, List.cons_append,
    List.singleton_append]
  exact mw_fmt1

theorem mw_find : findMatchingTrades 5 (7/10) (List.replicate 10 mTrade) (List.replicate 10 mTrade)
    = some [mwMatch, mwMatch, mwMatch, mwMatch, mwMatch, mwMatch, mwMatch, mwMatch, mwMatch, mwMatch] := by
  have hrep : List.replicate 10 mTrade = [mTrade, mTrade, mTrade, mTrade, mTrade, mTrade, mTrade, mTrade, mTrade, mTrade] := rfl
  rw [findMatchingTrades, hrep, mw_fmt0]
  rfl

theorem mw_tr (s : String) : (mwClient s).tradesD = List.replicate 10 mTrade := rfl

theorem mw_rb (s : String) : (mwClient s).referred_by = "P" := rfl

theorem mw_cid (s : String) : (mwClient s).client_id = s := rfl

theorem mw_pl : mTrade.pl = 10 := rfl

set_option maxHeartbeats 1000000 in
theorem mw_cell : mirrorCell [mwClient "MA", mwClient "MC"] 0 1 = some 1 := by
  norm_num [mirrorCell, mw_tr, mw_find, List.getD_cons_zero, List.getD_cons_succ,
    Option.bind_eq_bind, Option.some_bind]

set_option maxHeartbeats 1000000 in
theorem mw_matrix : buildMirrorMatrix [mwClient "MA", mwClient "MC"] = some [[0, 1], [1, 0]] := by
  have hr : List.range 2 = [0, 1] := by decide
  norm_num [buildMirrorMatrix, mapOptM, hr, mw_cell, Option.bind_eq_bind, Option.some_bind]

set_option maxHeartbeats 1000000 in
theorem mw_clusters : greedyClusters (matrixEntry [[0, 1], [1, 0]]) 2 (1/2) 2 = [[0, 1]] := by
  have hr : List.range 2 = [0, 1] := by decide
  have hr' : List.range' 2 0 = [] := by decide
  have hr'' : List.range' 1 1 = [1] := by decide
  norm_num [greedyClusters, greedyAux, extendCluster, matrixEntry, hr, hr', hr'',
    List.getD_cons_zero, List.getD_cons_succ, List.all_cons, List.all_nil,
    decide_eq_true_eq]

set_option maxHeartbeats 2000000 in
theorem mw_mk : mkMirrorFinding "P" [mwClient "MA", mwClient "MC"] [[0, 1], [1, 0]] [0, 1]
    = mwFinding := by
  norm_num [mkMirrorFinding, mwFinding, instrumentCounts, ordPairs, matrixEntry,
    mwClient, Client.tradesD, List.replicate, mw_instr, mw_pl, mw_cid,
    List.getD_cons_zero, List.getD_cons_succ, List.mergeSort_singleton, abs_of_pos]

set_option maxHeartbeats 2000000 in
theorem mw_detect : detectMirrorGroup [mwClient "MA", mwClient "MC"] 2 (1/2)
    = some [mwFinding] := by
  norm_num [detectMirrorGroup, flatMapM, partnerKeys, mw_rb, mw_tr, mw_matrix, mw_clusters,
    mw_mk, List.mergeSort_singleton, Option.bind_eq_bind, Option.some_bind,
    List.filter_cons, List.filter_nil, List.length_replicate]

/-- C10 witness: the bounds instantiated at concrete inputs — the empty
matching, the constructed two-client similarity matrix, and the mirror
detector's finding on the concrete two-client snapshot. -/
theorem C10_matching_bounds_witness :
    ([] : List MirrorMatch).length ≤ min ([] : List Trade).length ([] : List Trade).length ∧
    (0 ≤ matrixEntry [[0, 1], [1, 0]] 0 1 ∧ matrixEntry [[0, 1], [1, 0]] 0 1 ≤ 1) ∧
    (0 ≤ mwFinding.confidence_score ∧ mwFinding.confidence_score ≤ 1) :=
  ⟨C10_matching_bounds.1 5 (7/10) [] [] [] rfl,
   C10_matching_bounds.2.1 [mwClient "MA", mwClient "MC"] [[0, 1], [1, 0]] mw_matrix 0 1,
   C10_matching_bounds.2.2 [mwClient "MA", mwClient "MC"] 2 (1/2) [mwFinding] mwFinding
     mw_detect (by simp)⟩


/-! ## Opposite trading: concrete evaluations on the two snapshots -/

theorem scn_parseB : parseTimestamp ("2024-01-15T10:02:00") = some 63840909720 := by decide

theorem scnA_ts : tScnA.timestamp = "2024-01-15T10:00:00" := rfl
theorem scnB_ts : tScnB.timestamp = "2024-01-15T10:02:00" := rfl
theorem scnA_inst : tScnA.instrument = "EUR/USD" := rfl
theorem scnB_inst : tScnB.instrument = "EUR/USD" := rfl
theorem scnA_dir : tScnA.direction = "BUY" := rfl
theorem scnB_dir : tScnB.direction = "SELL" := rfl
theorem scnA_vol : tScnA.volume = 1 := rfl
theorem scnB_vol : tScnB.volume = 1 := rfl
theorem scnA_pl : tScnA.pl = 100 := rfl
theorem scnB_pl : tScnB.pl = -100 := rfl
theorem sdirs : ("BUY" : String) ≠ "SELL" := by decide

theorem scn_tsc : timingScore 10 63840909600 63840909720 = 4/5 := by
  have hd : ((63840909600 - 63840909720 : Int)).natAbs = 120 := by decide
  norm_num [timingScore, hd]

theorem scn_timing : calculateTimingCorrelation [tScnA] [tScnB] 10 = some (4/5) := by
  norm_num [calculateTimingCorrelation, parseAll, scnA_ts, scnB_ts, scnA_inst, scnB_inst,
    mw_parse, scn_parseB, scn_tsc, Option.bind_eq_bind, Option.some_bind,
    List.filterMap_cons, List.filterMap_nil, List.flatMap_cons, List.flatMap_nil]

theorem scn_ops : detectOppositeDirections 10 [tScnA] [tScnB] = some [scnPair] := by
  have hd : ((63840909600 - 63840909720 : Int)).natAbs = 120 := by decide
  norm_num [detectOppositeDirections, parseAll, flatMapM, oppPairOf, scnPair,
    scnA_ts, scnB_ts, scnA_inst, scnB_inst, scnA_dir, scnB_dir, scnA_vol, scnB_vol,
    sdirs, hd, mw_parse, scn_parseB, Option.bind_eq_bind, Option.some_bind,
    List.filterMap_cons, List.filterMap_nil, List.flatMap_cons, List.flatMap_nil]

theorem scn_pnl : calculatePnlCorrelation [tScnA] [tScnB] = 0 := by
  simp [calculatePnlCorrelation]

theorem scnCA_tr : scnClientA.tradesD = [tScnA] := rfl
theorem scnCB_tr : scnClientB.tradesD = [tScnB] := rfl
theorem scnCA_rb : scnClientA.referred_by = "P1" := rfl
theorem scnCB_rb : scnClientB.referred_by = "P2" := rfl
theorem scnCA_id : scnClientA.client_id = "CA" := rfl
theorem scnCB_id : scnClientB.client_id = "CB" := rfl

set_option maxHeartbeats 1000000 in
theorem scn_analyze : analyzePair (3/5) "P1" "P2" scnClientA scnClientB
    = some [scnFinding] := by
  norm_num [analyzePair, scnFinding, scnCA_tr, scnCB_tr, scnCA_id, scnCB_id,
    scn_timing, scn_ops, scn_pnl, scnA_pl, scnB_pl,
    Option.bind_eq_bind, Option.some_bind]

theorem sP21 : (("P2" : String) = "P1") = False := by decide
theorem sP11 : (("P1" : String) = "P1") = True := by decide
theorem sP22 : (("P2" : String) = "P2") = True := by decide
theorem sP12 : (("P1" : String) = "P2") = False := by decide

set_option maxHeartbeats 1000000 in
theorem scn_detect : detectOppositeTrading scnClients (3/5) = some [scnFinding] := by
  norm_num [detectOppositeTrading, scnClients, flatMapM, partnerKeys, ordPairs,
    scnCA_rb, scnCB_rb, scnCA_tr, scnCB_tr, sP21, sP11, sP22, sP12, scn_analyze,
    List.mergeSort_singleton, Option.bind_eq_bind, Option.some_bind,
    List.filter_cons, List.filter_nil]

theorem oneA_ts : tOneA.timestamp = "2024-01-15T10:00:00" := rfl
theorem oneB_ts : tOneB.timestamp = "2024-01-15T10:00:00" := rfl
theorem oneA_inst : tOneA.instrument = "EUR/USD" := rfl
theorem oneB_inst : tOneB.instrument = "EUR/USD" := rfl
theorem oneA_dir : tOneA.direction = "BUY" := rfl
theorem oneB_dir : tOneB.direction = "SELL" := rfl
theorem oneA_vol : tOneA.volume = 1 := rfl
theorem oneB_vol : tOneB.volume = 1 := rfl
theorem oneA_pl : tOneA.pl = 0 := rfl
theorem oneB_pl : tOneB.pl = 0 := rfl

theorem cex_tsc : timingScore 10 63840909600 63840909600 = 1 := by
  have hd : ((63840909600 - 63840909600 : Int)).natAbs = 0 := by decide
  norm_num [timingScore, hd]

theorem cexB_ne : (([tOneB, tOneB] : List Trade) = []) = False := by simp

theorem cex_timing : calculateTimingCorrelation [tOneA] [tOneB, tOneB] 10 = some 1 := by
  norm_num [calculateTimingCorrelation, parseAll, oneA_ts, oneB_ts, oneA_inst, oneB_inst,
    mw_parse, cex_tsc, cexB_ne, Option.bind_eq_bind, Option.some_bind,
    List.filterMap_cons, List.filterMap_nil, List.flatMap_cons, List.flatMap_nil]

theorem cex_ops : detectOppositeDirections 10 [tOneA] [tOneB, tOneB]
    = some [cexPair, cexPair] := by
  have hd : ((63840909600 - 63840909600 : Int)).natAbs = 0 := by decide
  norm_num [detectOppositeDirections, parseAll, flatMapM, oppPairOf, cexPair,
    oneA_ts, oneB_ts, oneA_inst, oneB_inst, oneA_dir, oneB_dir, oneA_vol, oneB_vol,
    sdirs, hd, mw_parse, cexB_ne, Option.bind_eq_bind, Option.some_bind,
    List.filterMap_cons, List.filterMap_nil, List.flatMap_cons, List.flatMap_nil]

theorem cex_pnl : calculatePnlCorrelation [tOneA] [tOneB, tOneB] = 0 := by
  simp [calculatePnlCorrelation]

theorem cexCA_tr : cexClientA.tradesD = [tOneA] := rfl
theorem cexCB_tr : cexClientB.tradesD = [tOneB, tOneB] := rfl
theorem cexCA_rb : cexClientA.referred_by = "P1" := rfl
theorem cexCB_rb : cexClientB.referred_by = "P2" := rfl
theorem cexCA_id : cexClientA.client_id = "UA" := rfl
theorem cexCB_id : cexClientB.client_id = "UB" := rfl

set_option maxHeartbeats 1000000 in
theorem cex_analyze : analyzePair (3/5) "P1" "P2" cexClientA cexClientB
    = some [cexFinding] := by
  norm_num [analyzePair, cexFinding, cexCA_tr, cexCB_tr, cexCA_id, cexCB_id,
    cex_timing, cex_ops, cex_pnl, oneA_pl, oneB_pl, cexB_ne,
    Option.bind_eq_bind, Option.some_bind]

set_option maxHeartbeats 1000000 in
theorem cex_detect : detectOppositeTrading cexClients (3/5) = some [cexFinding] := by
  norm_num [detectOppositeTrading, cexClients, flatMapM, partnerKeys, ordPairs,
    cexCA_rb, cexCB_rb, cexCA_tr, cexCB_tr, sP21, sP11, sP22, sP12, cex_analyze, cexB_ne,
    List.mergeSort_singleton, Option.bind_eq_bind, Option.some_bind,
    List.filter_cons, List.filter_nil]

/-! ## Opposite trading: general bounds -/

/-- The timing contribution of a single cross pair is nonnegative. -/
theorem timingScore_nonneg (w : ℚ) (hw : 0 < w) (a b : Int) :
    0 ≤ timingScore w a b := by
  simp only [timingScore]
  split
  · rename_i hle
    rw [sub_nonneg]
    exact (div_le_one hw).mpr hle
  · exact le_refl 0

/-- The timing contribution of a single cross pair is at most 1. -/
theorem timingScore_le_one (w : ℚ) (hw : 0 < w) (a b : Int) :
    timingScore w a b ≤ 1 := by
  simp only [timingScore]
  split
  · have h0 : (0:ℚ) ≤ (((a - b).natAbs : ℚ)) / 60 / w := by positivity
    linarith
  · exact zero_le_one

/-- Whenever the timing correlation succeeds its value lies in `[0, 1]`. -/
theorem timingCorrelation_bounds (trades1 trades2 : List Trade) (w : ℚ)
    (hw : 0 < w) (c : ℚ)
    (h : calculateTimingCorrelation trades1 trades2 w = some c) :
    0 ≤ c ∧ c ≤ 1 := by
  unfold calculateTimingCorrelation at h
  split at h
  · simp only [Option.some.injEq] at h
    subst h
    norm_num
  · simp only [Option.bind_eq_bind] at h
    obtain ⟨p1, hp1, h⟩ := Option.bind_eq_some.mp h
    obtain ⟨p2, hp2, h⟩ := Option.bind_eq_some.mp h
    simp only [Option.pure_def] at h
    split at h
    · simp only [Option.some.injEq] at h
      subst h
      norm_num
    · rename_i hlen
      simp only [Option.some.injEq] at h
      subst h
      have hsum : 0 ≤ (p1.flatMap (fun a => p2.filterMap (fun b =>
          if a.1.instrument = b.1.instrument then some (timingScore w a.2 b.2)
          else none))).sum := by
        apply List.sum_nonneg
        intro x hx
        obtain ⟨a, _, hx⟩ := List.mem_flatMap.mp hx
        obtain ⟨b, _, hb⟩ := List.mem_filterMap.mp hx
        split at hb
        · obtain rfl : timingScore w a.2 b.2 = x := by simpa using hb
          exact timingScore_nonneg w hw a.2 b.2
        · simp at hb
      exact ⟨le_min zero_le_one (div_nonneg hsum (Nat.cast_nonneg _)),
        min_le_left _ _⟩

/-- Sums of squared rationals are nonnegative. -/
theorem sum_sq_nonneg_q (l : List ℚ) : 0 ≤ (l.map (fun a => a^2)).sum := by
  apply List.sum_nonneg
  intro x hx
  obtain ⟨a, _, rfl⟩ := List.mem_map.mp hx
  positivity

/-- Cauchy-Schwarz for the positional inner product of two rational lists
(the right-hand sums run over the full lists, the inner product over the
zip). -/
theorem zip_inner_sq_le : ∀ (l1 l2 : List ℚ),
    (((l1.zip l2).map (fun p => p.1 * p.2)).sum)^2 ≤
      (l1.map (fun a => a^2)).sum * (l2.map (fun b => b^2)).sum := by
  intro l1
  induction l1 with
  | nil => intro l2; simp
  | cons a l1 ih =>
    intro l2
    cases l2 with
    | nil => simp
    | cons b l2 =>
      simp only [List.zip_cons_cons, List.map_cons, List.sum_cons]
      have h := ih l2
      have h1 := sum_sq_nonneg_q l1
      have h2 := sum_sq_nonneg_q l2
      rcases eq_or_lt_of_le h2 with hQ | hQ
      · have hS : ((l1.zip l2).map (fun p => p.1 * p.2)).sum = 0 := by
          nlinarith [sq_nonneg ((l1.zip l2).map (fun p => p.1 * p.2)).sum]
        rw [hS, ← hQ]
        nlinarith [sq_nonneg b, mul_nonneg h1 (sq_nonneg b)]
      · nlinarith [sq_nonneg (a * (l2.map (fun x => x^2)).sum
            - b * ((l1.zip l2).map (fun p => p.1 * p.2)).sum),
          mul_nonneg (sq_nonneg b) (sub_nonneg.mpr h)]

/-- Cauchy-Schwarz in the mean-centred form used by the Pearson numerator
and variances. -/
theorem pearson_sq_le (pnl1 pnl2 : List ℚ) (m1 m2 : ℚ) :
    (((pnl1.zip pnl2).map (fun p => (p.1 - m1) * (p.2 - m2))).sum)^2 ≤
      ((pnl1.map (fun a => (a - m1)^2)).sum) * ((pnl2.map (fun b => (b - m2)^2)).sum) := by
  have e1 : pnl1.map (fun a => (a - m1)^2)
      = (pnl1.map (fun a => a - m1)).map (fun a => a^2) := by
    rw [List.map_map]
    exact List.map_congr_left (fun a _ => rfl)
  have e2 : pnl2.map (fun b => (b - m2)^2)
      = (pnl2.map (fun b => b - m2)).map (fun b => b^2) := by
    rw [List.map_map]
    exact List.map_congr_left (fun b _ => rfl)
  have e3 : (pnl1.zip pnl2).map (fun p => (p.1 - m1) * (p.2 - m2)) =
      ((pnl1.map (fun a => a - m1)).zip (pnl2.map (fun b => b - m2))).map
        (fun p => p.1 * p.2) := by
    rw [List.zip_map, List.map_map]
    exact List.map_congr_left (fun p _ => rfl)
  rw [e1, e2, e3]
  exact zip_inner_sq_le _ _

/-- The squared Pearson numerator is bounded by the product of the two
variances. -/
theorem pnlStats_sq (t1 t2 : List Trade) :
    (pnlStats t1 t2).1 ^ 2 ≤ (pnlStats t1 t2).2.1 * (pnlStats t1 t2).2.2 := by
  unfold pnlStats
  exact pearson_sq_le _ _ _ _

/-- The Pearson profit/loss correlation always lies in `[-1, 1]`. -/
theorem pnlCorrelation_abs_le (t1 t2 : List Trade) :
    |calculatePnlCorrelation t1 t2| ≤ 1 := by
  unfold calculatePnlCorrelation
  split
  · norm_num
  · dsimp only
    split
    · norm_num
    · rename_i hlen hden
      rw [abs_div, abs_of_nonneg (Real.sqrt_nonneg _),
        div_le_one (lt_of_le_of_ne (Real.sqrt_nonneg _) (Ne.symm hden))]
      have h2 : |((pnlStats t1 t2).1 : ℝ)|
          = Real.sqrt (((pnlStats t1 t2).1 : ℝ)^2) :=
        (Real.sqrt_sq_eq_abs _).symm
      rw [h2]
      apply Real.sqrt_le_sqrt
      exact_mod_cast pnlStats_sq t1 t2

/-- Bounds on the weighted suspicion score given bounds on its three
inputs. -/
theorem score_bounds (tc r : ℚ) (p : ℝ) (htc0 : 0 ≤ tc) (htc1 : tc ≤ 1)
    (hr0 : 0 ≤ r) (hp : |p| ≤ 1) :
    0 ≤ (tc:ℝ) * (3/10) + (r:ℝ) * (4/10) + max 0 (-p) * (3/10) ∧
    (r ≤ 1 → (tc:ℝ) * (3/10) + (r:ℝ) * (4/10) + max 0 (-p) * (3/10) ≤ 1) := by
  rw [abs_le] at hp
  have t1 : (0:ℝ) ≤ (tc:ℝ) := by exact_mod_cast htc0
  have t2 : (tc:ℝ) ≤ 1 := by exact_mod_cast htc1
  have t3 : (0:ℝ) ≤ (r:ℝ) := by exact_mod_cast hr0
  have t4 : (0:ℝ) ≤ max 0 (-p) := le_max_left _ _
  have t5 : max 0 (-p) ≤ 1 := max_le zero_le_one (by linarith [hp.1])
  constructor
  · linarith
  · intro hrle
    have t6 : (r:ℝ) ≤ 1 := by exact_mod_cast hrle
    linarith

/-- Every finding emitted by `analyzePair` has a nonnegative confidence,
and a confidence at most 1 when its opposite-trade ratio is at most 1. -/
theorem analyzePair_bounds (threshold : ℚ) (pa pb : String) (c1 c2 : Client)
    (fs : List OppFinding) (f : OppFinding)
    (h : analyzePair threshold pa pb c1 c2 = some fs) (hf : f ∈ fs) :
    0 ≤ f.confidence_score ∧
      (f.opposite_trade_ratio ≤ 1 → f.confidence_score ≤ 1) := by
  simp only [analyzePair, Option.bind_eq_bind] at h
  obtain ⟨tc, htc, h⟩ := Option.bind_eq_some.mp h
  obtain ⟨ops, hops, h⟩ := Option.bind_eq_some.mp h
  simp only [Option.pure_def] at h
  have hratio0 : (0:ℚ) ≤ (if 0 < min c1.tradesD.length c2.tradesD.length then
      ((ops.length : ℚ) / (((min c1.tradesD.length c2.tradesD.length) : ℕ) : ℚ))
      else 0) := by
    split
    · positivity
    · exact le_refl 0
  generalize hR : (if 0 < min c1.tradesD.length c2.tradesD.length then
      ((ops.length : ℚ) / (((min c1.tradesD.length c2.tradesD.length) : ℕ) : ℚ))
      else 0) = r at h hratio0
  split at h
  · rename_i hth
    obtain rfl := Option.some.inj h
    rw [List.mem_singleton] at hf
    subst hf
    dsimp only
    obtain ⟨htc0, htc1⟩ :=
      timingCorrelation_bounds c1.tradesD c2.tradesD 10 (by norm_num) tc htc
    have hpnl := pnlCorrelation_abs_le c1.tradesD c2.tradesD
    exact score_bounds tc r _ htc0 htc1 hratio0 hpnl
  · obtain rfl := Option.some.inj h
    simp at hf

/-- Every finding of `detectOppositeTrading` is produced by `analyzePair`
on some cross-partner pair of clients. -/
theorem detectOppositeTrading_mem (clients : List Client) (threshold : ℚ)
    (fs : List OppFinding) (f : OppFinding)
    (h : detectOppositeTrading clients threshold = some fs) (hf : f ∈ fs) :
    ∃ pa pb c1 c2 fs1, analyzePair threshold pa pb c1 c2 = some fs1 ∧ f ∈ fs1 := by
  simp only [detectOppositeTrading, Option.bind_eq_bind] at h
  obtain ⟨gs, hgs, h2⟩ := Option.bind_eq_some.mp h
  obtain rfl : gs.mergeSort (fun a b => decide (b.confidence_score ≤ a.confidence_score))
      = fs := by simpa [Option.pure_def] using h2
  rw [List.mem_mergeSort] at hf
  obtain ⟨pq, hpq, l1, h1, hm1⟩ := flatMapM_mem _ _ hgs f hf
  obtain ⟨c1, hc1, l2, hin, hm2⟩ := flatMapM_mem _ _ h1 f hm1
  split at hin
  · obtain rfl : ([] : List OppFinding) = l2 := by simpa using hin
    simp at hm2
  · obtain ⟨c2, hc2, l3, h3, hm3⟩ := flatMapM_mem _ _ hin f hm2
    split at h3
    · obtain rfl : ([] : List OppFinding) = l3 := by simpa using h3
      simp at hm3
    · exact ⟨pq.1, pq.2, c1, c2, l3, h3, hm3⟩

/-- C1: every finding produced by the opposite-trading detector has a
nonnegative confidence score, and the score is at most 1 whenever the
finding's opposite-trade ratio `|opposite_pairs| / min(|tradesA|, |tradesB|)`
is at most 1 (the spec's unconditional upper bound fails: the ratio itself
can exceed 1, see the counterexample). -/
theorem C1_confidence_bounds (clients : List Client) (threshold : ℚ)
    (fs : List OppFinding) (f : OppFinding)
    (h : detectOppositeTrading clients threshold = some fs) (hf : f ∈ fs) :
    0 ≤ f.confidence_score ∧
      (f.opposite_trade_ratio ≤ 1 → f.confidence_score ≤ 1) := by
  obtain ⟨pa, pb, c1, c2, fs1, ha, hm⟩ :=
    detectOppositeTrading_mem clients threshold fs f h hf
  exact analyzePair_bounds threshold pa pb c1 c2 fs1 f ha hm

/-- Witness for C1 on the concrete scenario snapshot. -/
theorem C1_confidence_bounds_witness :
    0 ≤ scnFinding.confidence_score ∧
      (scnFinding.opposite_trade_ratio ≤ 1 → scnFinding.confidence_score ≤ 1) :=
  C1_confidence_bounds scnClients (3/5) [scnFinding] scnFinding scn_detect
    (List.mem_singleton.mpr rfl)

/-- Counterexample to C1 as stated: on `cexClients` (one trade against two
opposite trades at the same instant) the detector emits a finding whose
confidence score is `1.1 > 1`. -/
theorem C1_counterexample :
    detectOppositeTrading cexClients (3/5) = some [cexFinding] ∧
      1 < cexFinding.confidence_score :=
  ⟨cex_detect, by norm_num [cexFinding]⟩

/-- C4 (amended): in the spec's scenario the pair is reported with
`opposite_ratio = 1`, `timing_corr = 0.8` and combined score
`0.64 ≥ 0.6`, but the P&L correlation is `0`, not `-1` (both sides hold a
single trade, so the `len < 2` guard of `calculate_pnl_correlation`
fires), so the P&L term contributes nothing. -/
theorem C4_scenario :
    detectOppositeTrading scnClients (3/5) = some [scnFinding] ∧
      scnFinding.timing_correlation = 4/5 ∧
      scnFinding.opposite_trade_ratio = 1 ∧
      scnFinding.pnl_correlation = 0 ∧
      scnFinding.confidence_score = 16/25 ∧
      ((3/5 : ℚ) : ℝ) ≤ scnFinding.confidence_score :=
  ⟨scn_detect, rfl, rfl, rfl, rfl, by norm_num [scnFinding]⟩

/-- Counterexample to C4 as stated: the scenario's reported finding has
P&L correlation `0`, not `-1`. -/
theorem C4_counterexample :
    detectOppositeTrading scnClients (3/5) = some [scnFinding] ∧
      scnFinding.pnl_correlation ≠ -1 :=
  ⟨scn_detect, by norm_num [scnFinding]⟩

end GraphRisk
